import Mathlib

/-!
# PCI configuration access on Darwin: the three IOKit back ends

A shallow embedding of `lib/darwin.c` (AppleACPIPlatformExpert, "darwin1"),
`lib/darwin2.c` (IOPCIBridge diagnostics client, "darwin2") and `lib/darwin3.c`
(DirectHW kext, "darwin3"), together with the theorems that settle the
properties claimed for them.

Conventions of the embedding.

* C `int` arguments (`pos`, `len`, `domain`, `fd`, `kern_return_t`) are `Int`;
  unsigned fields are `Nat` and every store into a narrower unsigned object is
  an explicit reduction modulo a power of two.
* A `byte *buf` is a `List Nat` of byte values, index 0 first.
* The privileged transport, the IOKit registry, `mach_error_string`, the
  generic block transfer and the per-bus probe live outside these files; they
  are parameters of the embedding, threaded through an explicit state `σ` of
  the outside world.
* `a->error` is the access handle's fatal error hook (libpci declares it as
  non-returning: it reports and quits).  A call of it ends the embedded
  function with `Except.error`, carrying the arguments it was given.
-/

namespace Darwin

/-! ## Machine integers, bit-fields and byte buffers -/

/-- Conversion of a C `int` to a 32-bit unsigned object (`UInt32`, `io_connect_t`). -/
def toUInt32 (x : Int) : Nat := (x % 4294967296).toNat

/-- Conversion of a 32-bit unsigned object to a C `int` (two's complement). -/
def toInt32 (x : Nat) : Int :=
  if x % 4294967296 < 2147483648 then ((x % 4294967296 : Nat) : Int)
  else ((x % 4294967296 : Nat) : Int) - 4294967296

/-- Value held by an unsigned bit-field of `w` bits after `x` is assigned to it. -/
def bitfield (w : Nat) (x : Int) : Nat := (x % (2 : Int) ^ w).toNat

/-- Storage word of a run of bit-fields given as `(width, value)` in declaration
order, as the Darwin ABI lays them out: the first field sits in the least
significant bits, each following field directly above the previous one (no
field of the address union straddles a 32-bit unit, so no padding arises). -/
def packFields : List (Nat × Nat) → Nat
  | [] => 0
  | (w, v) :: rest => v % 2 ^ w + 2 ^ w * packFields rest

/-- The `n` low-order bytes of `v`, least significant first (what
`cpu_to_le16` / `cpu_to_le32` followed by a store leave in memory). -/
def le_bytes : Nat → Nat → List Nat
  | 0, _ => []
  | n + 1, v => v % 256 :: le_bytes n (v / 256)

/-- Little-endian value of a byte string (`le16_to_cpu` / `le32_to_cpu` of a load). -/
def le_decode : List Nat → Nat
  | [] => 0
  | b :: bs => b % 256 + 256 * le_decode bs

/-- Store `bytes` at the start of `buf`. -/
def poke (buf bytes : List Nat) : List Nat := bytes ++ buf.drop bytes.length

/-- Load the first `n` bytes of `buf` as a little-endian unsigned value. -/
def peek (buf : List Nat) (n : Nat) : Nat := le_decode (buf.take n)

/-! ## Data model -/

/-- The `pci` member of `union IOACPIAddress` (and of the anonymous `address`
union of `IOPCIDiagnosticsParameters`, which declares the same bit-fields). -/
structure IOACPIAddress where
  offset : Nat
  function : Nat
  device : Nat
  bus : Nat
  segment : Nat
  reserved : Nat
deriving DecidableEq, Repr

/-- The `addr64` member of the union: the 64-bit word the bit-fields
`offset:16, function:3, device:5, bus:8, segment:16, reserved:16` occupy. -/
def IOACPIAddress.addr64 (a : IOACPIAddress) : Nat :=
  packFields [(16, a.offset), (3, a.function), (5, a.device), (8, a.bus),
    (16, a.segment), (16, a.reserved)]

/-- Request block of the ACPI address-space method (`struct AddressSpaceParam`). -/
structure AddressSpaceParam where
  value : Nat
  spaceID : Nat
  address : IOACPIAddress
  bitWidth : Nat
  bitOffset : Nat
  options : Nat
deriving DecidableEq, Repr

/-- Request block of the PCI diagnostics methods (`struct IOPCIDiagnosticsParameters`). -/
structure IOPCIDiagnosticsParameters where
  options : Nat
  spaceType : Nat
  bitWidth : Nat
  _resv : Nat
  value : Nat
  address : IOACPIAddress
deriving DecidableEq, Repr

/-- The fields of `struct pci_access` these files use. -/
structure pci_access where
  fd : Int
deriving DecidableEq, Repr

/-- The fields of `struct pci_dev` these files use. -/
structure pci_dev where
  access : pci_access
  domain : Int
  bus : Nat
  dev : Nat
  func : Nat
deriving DecidableEq, Repr

/-- Modelled from the spec: the error hook `a->error` of the access handle
(declared in libpci's `pci.h`, not among these files, as a non-returning
function that writes the message and quits).  A failed transaction is surfaced
to the caller with the raw status code and a description, and the function
that raised it does not go on.  A `Failure` holds the arguments the hook is
called with: the format string, the status and `mach_error_string(status)`. -/
structure Failure where
  format : String
  status : Int
  description : String
deriving DecidableEq, Repr

/-- One invocation of `MyIOConnectCallStructMethod`: connection, method index,
input block, and whether an output block is supplied (`out` non-null). -/
structure Call (P : Type) where
  connect : Nat
  index : Nat
  input : P
  output : Bool
deriving DecidableEq, Repr

/-- What a configuration read or write did: the requests it passed to the
transport itself, the state of the outside world afterwards, and either the
returned `int` with the buffer contents or the fatal error raised. -/
structure Run (σ P : Type) where
  calls : List (Call P)
  state : σ
  result : Except Failure (Int × List Nat)

/-- The collaborators outside these files, for a request block type `P`. -/
structure Host (σ P : Type) where
  IOConnectCallStructMethod : σ → Call P → Int × P × σ
  mach_error_string : Int → String
  pci_generic_block_read : σ → pci_dev → Int → List Nat → Int → σ × Except Failure (Int × List Nat)
  pci_generic_block_write : σ → pci_dev → Int → List Nat → Int → σ × Except Failure (Int × List Nat)

/-- The wrapper of `DirectHW_pciu.c`: forwards to the IOKit call and returns its status. -/
def MyIOConnectCallStructMethod {σ P : Type} (h : Host σ P) (s : σ) (c : Call P) : Int × P × σ :=
  h.IOConnectCallStructMethod s c

def kIOReturnSuccess : Int := 0

def MACH_PORT_NULL : Nat := 0

/-! ## darwin.c: AppleACPIPlatformExpert -/

def kACPIMethodAddressSpaceRead : Nat := 0
def kACPIMethodAddressSpaceWrite : Nat := 1
def kACPIMethodDebuggerCommand : Nat := 2

def kIOACPIAddressSpaceIDSystemMemory : Nat := 0
def kIOACPIAddressSpaceIDPCIConfiguration : Nat := 2

/-- The address union as the six bit-field assignments of read and write fill it. -/
def pci_address (d : pci_dev) (pos : Int) : IOACPIAddress :=
  { offset := bitfield 16 pos
    function := bitfield 3 d.func
    device := bitfield 5 d.dev
    bus := bitfield 8 d.bus
    segment := bitfield 16 d.domain
    reserved := bitfield 16 0 }

/-- The block `darwin1_read` has built when it calls the transport
(`param0` is the uninitialised automatic variable). -/
def darwin1_read_param (param0 : AddressSpaceParam) (d : pci_dev) (pos len : Int) : AddressSpaceParam :=
  { param0 with
    spaceID := kIOACPIAddressSpaceIDPCIConfiguration
    bitWidth := toUInt32 (len * 8)
    bitOffset := 0
    options := 0
    address := pci_address d pos
    value := 18446744073709551615 }

/-- Bytes stored by the final `switch (len)` of a read, from the 64-bit `value`. -/
def read_store (buf : List Nat) (len : Int) (value : Nat) : List Nat :=
  if len = 1 then poke buf [value % 256]
  else if len = 2 then poke buf (le_bytes 2 (value % 65536))
  else if len = 4 then poke buf (le_bytes 4 (value % 4294967296))
  else buf

/-- Value loaded by the `switch (len)` of a write; `none` when no case assigns it. -/
def write_load (buf : List Nat) (len : Int) : Option Nat :=
  if len = 1 then some (peek buf 1)
  else if len = 2 then some (peek buf 2)
  else if len = 4 then some (peek buf 4)
  else none

/-- The transport call of `darwin1_read`: method `kACPIMethodAddressSpaceRead`, with
`&param` as input and as output block. -/
def darwin1_read_call (param0 : AddressSpaceParam) (d : pci_dev) (pos len : Int) : Call AddressSpaceParam :=
  { connect := toUInt32 d.access.fd, index := kACPIMethodAddressSpaceRead,
    input := darwin1_read_param param0 d pos len, output := true }

/-- Configuration read of `darwin.c`: lengths other than 1, 2 and 4 go to the
generic block transfer; otherwise one request is sent, a status other than
`kIOReturnSuccess` ends in the error hook, and success returns 1 with the low-order bytes of the response value stored in the buffer. -/
def darwin1_read {σ : Type} (h : Host σ AddressSpaceParam) (s : σ) (param0 : AddressSpaceParam)
    (d : pci_dev) (pos : Int) (buf : List Nat) (len : Int) : Run σ AddressSpaceParam :=
  if ¬ (len = 1 ∨ len = 2 ∨ len = 4) then
    let r := h.pci_generic_block_read s d pos buf len
    { calls := [], state := r.1, result := r.2 }
  else
    let call := darwin1_read_call param0 d pos len
    let r := MyIOConnectCallStructMethod h s call
    if kIOReturnSuccess ≠ r.1 then
      { calls := [call], state := r.2.2,
        result := .error ⟨"darwin read failed: 0x%08x = %s", r.1, h.mach_error_string r.1⟩ }
    else
      { calls := [call], state := r.2.2, result := .ok (1, read_store buf len r.2.1.value) }

/-- The block `darwin1_write` has built when it calls the transport. -/
def darwin1_write_param (param0 : AddressSpaceParam) (d : pci_dev) (pos : Int) (buf : List Nat)
    (len : Int) : AddressSpaceParam :=
  { param0 with
    spaceID := kIOACPIAddressSpaceIDPCIConfiguration
    bitWidth := toUInt32 (len * 8)
    bitOffset := 0
    options := 0
    address := pci_address d pos
    value := (write_load buf len).getD param0.value }

/-- The transport call of `darwin1_write`: method `kACPIMethodAddressSpaceWrite`,
with `&param` as input and no output block. -/
def darwin1_write_call (param0 : AddressSpaceParam) (d : pci_dev) (pos : Int) (buf : List Nat) (len : Int) :
    Call AddressSpaceParam :=
  { connect := toUInt32 d.access.fd, index := kACPIMethodAddressSpaceWrite,
    input := darwin1_write_param param0 d pos buf len, output := false }

/-- Configuration write of `darwin.c`: lengths other than 1, 2 and 4 go to the
generic block transfer; otherwise one request is sent, a status other than
`kIOReturnSuccess` ends in the error hook, and success returns 1. -/
def darwin1_write {σ : Type} (h : Host σ AddressSpaceParam) (s : σ) (param0 : AddressSpaceParam)
    (d : pci_dev) (pos : Int) (buf : List Nat) (len : Int) : Run σ AddressSpaceParam :=
  if ¬ (len = 1 ∨ len = 2 ∨ len = 4) then
    let r := h.pci_generic_block_write s d pos buf len
    { calls := [], state := r.1, result := r.2 }
  else
    let call := darwin1_write_call param0 d pos buf len
    let r := MyIOConnectCallStructMethod h s call
    if kIOReturnSuccess ≠ r.1 then
      { calls := [call], state := r.2.2,
        result := .error ⟨"darwin write failed: 0x%08x = %s", r.1, h.mach_error_string r.1⟩ }
    else
      { calls := [call], state := r.2.2, result := .ok (1, buf) }

/-! ## darwin2.c: IOPCIBridge diagnostics client -/

def kIOPCIConfigSpace : Nat := 0
def kIOPCIDiagnosticsClientType : Nat := 2566914049

def kIOPCIDiagnosticsMethodRead : Nat := 0
def kIOPCIDiagnosticsMethodWrite : Nat := 1

/-- The block `darwin2_read` has built when it calls the transport
(`param0` is the uninitialised automatic variable; `_resv` is never assigned). -/
def darwin2_read_param (param0 : IOPCIDiagnosticsParameters) (d : pci_dev) (pos len : Int) :
    IOPCIDiagnosticsParameters :=
  { param0 with
    spaceType := kIOPCIConfigSpace
    bitWidth := toUInt32 (len * 8)
    options := 0
    address := pci_address d pos
    value := 18446744073709551615 }

/-- The transport call of `darwin2_read`: method `kIOPCIDiagnosticsMethodRead`, with
`&param` as input and as output block. -/
def darwin2_read_call (param0 : IOPCIDiagnosticsParameters) (d : pci_dev) (pos len : Int) : Call IOPCIDiagnosticsParameters :=
  { connect := toUInt32 d.access.fd, index := kIOPCIDiagnosticsMethodRead,
    input := darwin2_read_param param0 d pos len, output := true }

/-- Configuration read of `darwin2.c`: lengths other than 1, 2 and 4 go to the
generic block transfer; otherwise one request is sent, a status other than
`kIOReturnSuccess` ends in the error hook, and success returns 1 with the low-order bytes of the response value stored in the buffer. -/
def darwin2_read {σ : Type} (h : Host σ IOPCIDiagnosticsParameters) (s : σ)
    (param0 : IOPCIDiagnosticsParameters) (d : pci_dev) (pos : Int) (buf : List Nat) (len : Int) :
    Run σ IOPCIDiagnosticsParameters :=
  if ¬ (len = 1 ∨ len = 2 ∨ len = 4) then
    let r := h.pci_generic_block_read s d pos buf len
    { calls := [], state := r.1, result := r.2 }
  else
    let call := darwin2_read_call param0 d pos len
    let r := MyIOConnectCallStructMethod h s call
    if kIOReturnSuccess ≠ r.1 then
      { calls := [call], state := r.2.2,
        result := .error ⟨"darwin2 read failed: 0x%08x = %s", r.1, h.mach_error_string r.1⟩ }
    else
      { calls := [call], state := r.2.2, result := .ok (1, read_store buf len r.2.1.value) }

/-- The block `darwin2_write` has built when it calls the transport. -/
def darwin2_write_param (param0 : IOPCIDiagnosticsParameters) (d : pci_dev) (pos : Int)
    (buf : List Nat) (len : Int) : IOPCIDiagnosticsParameters :=
  { param0 with
    spaceType := kIOPCIConfigSpace
    bitWidth := toUInt32 (len * 8)
    options := 0
    address := pci_address d pos
    value := (write_load buf len).getD param0.value }

/-- The transport call of `darwin2_write`: method `kIOPCIDiagnosticsMethodWrite`,
with `&param` as input and no output block. -/
def darwin2_write_call (param0 : IOPCIDiagnosticsParameters) (d : pci_dev) (pos : Int) (buf : List Nat) (len : Int) :
    Call IOPCIDiagnosticsParameters :=
  { connect := toUInt32 d.access.fd, index := kIOPCIDiagnosticsMethodWrite,
    input := darwin2_write_param param0 d pos buf len, output := false }

/-- Configuration write of `darwin2.c`: lengths other than 1, 2 and 4 go to the
generic block transfer; otherwise one request is sent, a status other than
`kIOReturnSuccess` ends in the error hook, and success returns 1. -/
def darwin2_write {σ : Type} (h : Host σ IOPCIDiagnosticsParameters) (s : σ)
    (param0 : IOPCIDiagnosticsParameters) (d : pci_dev) (pos : Int) (buf : List Nat) (len : Int) :
    Run σ IOPCIDiagnosticsParameters :=
  if ¬ (len = 1 ∨ len = 2 ∨ len = 4) then
    let r := h.pci_generic_block_write s d pos buf len
    { calls := [], state := r.1, result := r.2 }
  else
    let call := darwin2_write_call param0 d pos buf len
    let r := MyIOConnectCallStructMethod h s call
    if kIOReturnSuccess ≠ r.1 then
      { calls := [call], state := r.2.2,
        result := .error ⟨"darwin2 write failed: 0x%08x = %s", r.1, h.mach_error_string r.1⟩ }
    else
      { calls := [call], state := r.2.2, result := .ok (1, buf) }

/-! ## darwin3.c: DirectHW kext -/

/-- The method selectors of the DirectHW user client, an anonymous `enum`
numbered from 0 in declaration order. -/
inductive DirectHWMethod where
  | kReadIO
  | kWriteIO
  | kPrepareMap
  | kReadMSR
  | kWriteMSR
  | kReadCpuId
  | kReadMem
  | kRead
  | kWrite
  | kNumberOfMethods
deriving DecidableEq, Repr

def kRead : Nat := DirectHWMethod.kRead.toCtorIdx
def kWrite : Nat := DirectHWMethod.kWrite.toCtorIdx

/-- The block `darwin3_read` has built when it calls the transport
(`param0` is the uninitialised automatic variable; `_resv` is never assigned). -/
def darwin3_read_param (param0 : IOPCIDiagnosticsParameters) (d : pci_dev) (pos len : Int) :
    IOPCIDiagnosticsParameters :=
  { param0 with
    spaceType := kIOPCIConfigSpace
    bitWidth := toUInt32 (len * 8)
    options := 0
    address := pci_address d pos
    value := 18446744073709551615 }

/-- The transport call of `darwin3_read`: method `kRead`, with
`&param` as input and as output block. -/
def darwin3_read_call (param0 : IOPCIDiagnosticsParameters) (d : pci_dev) (pos len : Int) : Call IOPCIDiagnosticsParameters :=
  { connect := toUInt32 d.access.fd, index := kRead,
    input := darwin3_read_param param0 d pos len, output := true }

/-- Configuration read of `darwin3.c`: lengths other than 1, 2 and 4 go to the
generic block transfer; otherwise one request is sent, a status other than
`kIOReturnSuccess` ends in the error hook, and success returns 1 with the low-order bytes of the response value stored in the buffer. -/
def darwin3_read {σ : Type} (h : Host σ IOPCIDiagnosticsParameters) (s : σ)
    (param0 : IOPCIDiagnosticsParameters) (d : pci_dev) (pos : Int) (buf : List Nat) (len : Int) :
    Run σ IOPCIDiagnosticsParameters :=
  if ¬ (len = 1 ∨ len = 2 ∨ len = 4) then
    let r := h.pci_generic_block_read s d pos buf len
    { calls := [], state := r.1, result := r.2 }
  else
    let call := darwin3_read_call param0 d pos len
    let r := MyIOConnectCallStructMethod h s call
    if kIOReturnSuccess ≠ r.1 then
      { calls := [call], state := r.2.2,
        result := .error ⟨"darwin3 read failed: 0x%08x = %s", r.1, h.mach_error_string r.1⟩ }
    else
      { calls := [call], state := r.2.2, result := .ok (1, read_store buf len r.2.1.value) }

/-- The block `darwin3_write` has built when it calls the transport. -/
def darwin3_write_param (param0 : IOPCIDiagnosticsParameters) (d : pci_dev) (pos : Int)
    (buf : List Nat) (len : Int) : IOPCIDiagnosticsParameters :=
  { param0 with
    spaceType := kIOPCIConfigSpace
    bitWidth := toUInt32 (len * 8)
    options := 0
    address := pci_address d pos
    value := (write_load buf len).getD param0.value }

/-- The transport call of `darwin3_write`: method `kWrite`,
with `&param` as input and as output block. -/
def darwin3_write_call (param0 : IOPCIDiagnosticsParameters) (d : pci_dev) (pos : Int) (buf : List Nat) (len : Int) :
    Call IOPCIDiagnosticsParameters :=
  { connect := toUInt32 d.access.fd, index := kWrite,
    input := darwin3_write_param param0 d pos buf len, output := true }

/-- Configuration write of `darwin3.c`: lengths other than 1, 2 and 4 go to the
generic block transfer; otherwise one request is sent, a status other than
`kIOReturnSuccess` ends in the error hook, and success returns 1. -/
def darwin3_write {σ : Type} (h : Host σ IOPCIDiagnosticsParameters) (s : σ)
    (param0 : IOPCIDiagnosticsParameters) (d : pci_dev) (pos : Int) (buf : List Nat) (len : Int) :
    Run σ IOPCIDiagnosticsParameters :=
  if ¬ (len = 1 ∨ len = 2 ∨ len = 4) then
    let r := h.pci_generic_block_write s d pos buf len
    { calls := [], state := r.1, result := r.2 }
  else
    let call := darwin3_write_call param0 d pos buf len
    let r := MyIOConnectCallStructMethod h s call
    if kIOReturnSuccess ≠ r.1 then
      { calls := [call], state := r.2.2,
        result := .error ⟨"darwin3 write failed: 0x%08x = %s", r.1, h.mach_error_string r.1⟩ }
    else
      { calls := [call], state := r.2.2, result := .ok (1, buf) }

/-! ## Bus enumeration -/

/-- Modelled from the spec: `pci_generic_scan_bus` (the generic per-bus device
scan of libpci, `lib/generic.c`, not among these files).  Given the outside
world, the bus map, the domain and the bus number, it yields the bus numbers it
marks in the bus map (every bus it discovers to be a downstream secondary bus
of a bridge found on the current bus, including the current bus itself) and the
world it leaves behind.  It marks entries of the map and never clears one. -/
abbrev BusProbe (σ : Type) := σ → (Nat → Bool) → Nat → Nat → List Nat × σ

/-- Record of one invocation of the per-bus probe: where, and what it marked. -/
structure Probe where
  domain : Nat
  bus : Nat
  marks : List Nat
deriving DecidableEq, Repr

/-- The bus map after the buses in `marks` have been set. -/
def busmap_mark (busmap : Nat → Bool) (marks : List Nat) : Nat → Bool :=
  fun b => busmap b || marks.contains b

/-- Loop state of one domain: `byte busmap[256]`, the outside world, and the
probes invoked so far in this domain (oldest first). -/
structure BusLoop (σ : Type) where
  busmap : Nat → Bool
  world : σ
  probes : List Probe

/-- The body of `for (bus_number = 0; bus_number < 0x100; bus_number++)`. -/
def scan_bus_step {σ : Type} (pci_generic_scan_bus : BusProbe σ) (domain : Nat)
    (st : BusLoop σ) (bus_number : Nat) : BusLoop σ :=
  if !st.busmap bus_number then
    let r := pci_generic_scan_bus st.world st.busmap domain bus_number
    { busmap := busmap_mark st.busmap r.1
      world := r.2
      probes := st.probes ++ [{ domain := domain, bus := bus_number, marks := r.1 }] }
  else st

/-- The body of the domain loop: `memset(busmap, 0, sizeof(busmap))` and the
loop over the 256 bus numbers. -/
def scan_domain {σ : Type} (pci_generic_scan_bus : BusProbe σ) (s : σ) (domain : Nat) :
    BusLoop σ :=
  (List.range 0x100).foldl (scan_bus_step pci_generic_scan_bus domain)
    { busmap := fun _ => false, world := s, probes := [] }

/-- The loop `for (domain = 0; domain < count; domain++)`: the world it leaves
and all probe invocations, oldest first. -/
def scan_domains {σ : Type} (pci_generic_scan_bus : BusProbe σ) (count : Nat) (s : σ) :
    σ × List Probe :=
  (List.range count).foldl
    (fun acc domain =>
      let st := scan_domain pci_generic_scan_bus acc.1 domain
      (st.world, acc.2 ++ st.probes))
    (s, [])

/-- Bus scan of `darwin.c`: a single domain, `for (domain = 0; domain < 1; domain++)`. -/
def darwin1_scan {σ : Type} (pci_generic_scan_bus : BusProbe σ) (s : σ) : σ × List Probe :=
  scan_domains pci_generic_scan_bus 1 s

/-- Bus scan of `darwin2.c`: a single domain, `for (domain = 0; domain < 1; domain++)`. -/
def darwin2_scan {σ : Type} (pci_generic_scan_bus : BusProbe σ) (s : σ) : σ × List Probe :=
  scan_domains pci_generic_scan_bus 1 s

/-! ## Host bridge count (darwin3.c) -/

/-- An entry of the IOKit registry in the service plane: an identifier, whether
`IOObjectConformsTo(entry, "IOPCIBridge")` holds, and its children in iterator
order.  Being an inductive type, a hierarchy is a finite tree. -/
inductive Node where
  | mk (id : Nat) (conformsToIOPCIBridge : Bool) (children : List Node)
deriving Repr

/-- The static `pciHostBridgeCount`, with a record of the registry traffic: the
identifiers passed to `IOObjectConformsTo` (oldest first) and the number of
`IORegistryGetRootEntry` calls, one per hierarchy walk. -/
structure BridgeCount where
  pciHostBridgeCount : Int
  conformsTo : List Nat
  rootEntries : Nat
deriving DecidableEq, Repr

/-- State at program start: `static int pciHostBridgeCount = -1`. -/
def BridgeCount.initial : BridgeCount :=
  { pciHostBridgeCount := -1, conformsTo := [], rootEntries := 0 }

/-- The walk.  `service` is the current entry (`none` for a null handle) and
`services` what the iterator will still return; `IOIteratorNext` takes the
head.  Signed overflow of the counter is not modelled. -/
def CountPciHostBridges1 : Option Node → List Node → BridgeCount → BridgeCount
  | none, _, st => st
  | some (.mk id bridge children), services, st =>
    let st0 := { st with conformsTo := st.conformsTo ++ [id] }
    let st1 :=
      if bridge then { st0 with pciHostBridgeCount := st0.pciHostBridgeCount + 1 }
      else CountPciHostBridges1 children.head? children.tail st0
    CountPciHostBridges1 services.head? services.tail st1
termination_by service services => sizeOf service + sizeOf services
decreasing_by
  · have : sizeOf children.head? + sizeOf children.tail ≤ sizeOf children + 1 := by
      cases children <;> simp
    simp_wf
    omega
  · have : sizeOf services.head? + sizeOf services.tail ≤ sizeOf services + 1 := by
      cases services <;> simp
    simp_wf
    omega

/-- The memoizing entry point `CountPciHostBridges`, with `root` what
`IORegistryGetRootEntry` returns at the time of the call. -/
def CountPciHostBridges (root : Option Node) (st : BridgeCount) : BridgeCount :=
  if st.pciHostBridgeCount < 0 then
    CountPciHostBridges1 root []
      { st with pciHostBridgeCount := 0, rootEntries := st.rootEntries + 1 }
  else st

/-- Bus scan of `darwin3.c`: `CountPciHostBridges()` first, then one domain per
counted host bridge, `for (domain = 0; domain < pciHostBridgeCount; domain++)`. -/
def darwin3_scan {σ : Type} (pci_generic_scan_bus : BusProbe σ) (root : Option Node)
    (st : BridgeCount) (s : σ) : BridgeCount × σ × List Probe :=
  let st1 := CountPciHostBridges root st
  (st1, scan_domains pci_generic_scan_bus st1.pciHostBridgeCount.toNat s)

/-- A run of `darwin3_scan` calls, one per element of `roots` (the registry as it
is at each call): the final count state, the final world, and the probe log of
every call, oldest first. -/
def darwin3_scans {σ : Type} (pci_generic_scan_bus : BusProbe σ) (roots : List (Option Node))
    (st : BridgeCount) (s : σ) : BridgeCount × σ × List (List Probe) :=
  roots.foldl
    (fun acc root =>
      let r := darwin3_scan pci_generic_scan_bus root acc.1 acc.2.1
      (r.1, r.2.1, acc.2.2 ++ [r.2.2]))
    (st, s, [])

/-! ## What the count is meant to be -/

/-- A node of a hierarchy, with whether a proper ancestor of it conforms to
`IOPCIBridge`. -/
structure Entry where
  id : Nat
  bridge : Bool
  underBridge : Bool
deriving DecidableEq, Repr

mutual
/-- All nodes of the tree rooted at a node, in preorder; `u` tells whether an
ancestor of the root conforms to `IOPCIBridge`. -/
def Node.entries : Bool → Node → List Entry
  | u, .mk id b ch => ⟨id, b, u⟩ :: Node.entriesList (u || b) ch
/-- All nodes of a forest, in preorder. -/
def Node.entriesList : Bool → List Node → List Entry
  | _, [] => []
  | u, n :: rest => Node.entries u n ++ Node.entriesList u rest
end

/-- Number of nodes that conform to `IOPCIBridge` and have no proper ancestor
that does. -/
def Node.hostBridges (root : Node) : Nat :=
  ((root.entries false).filter (fun e => e.bridge && !e.underBridge)).length

/-- Identifiers of the nodes with no proper ancestor conforming to
`IOPCIBridge`, in preorder. -/
def Node.reachable (root : Node) : List Nat :=
  ((root.entries false).filter (fun e => !e.underBridge)).map (fun e => e.id)

/-- The entries a call `CountPciHostBridges1(service, services)` has before it:
none for a null `service`, else `service` followed by the rest of the iterator. -/
def pending : Option Node → List Node → List Node
  | none, _ => []
  | some n, services => n :: services

/-! ## Binding the connection: config, detect, init, cleanup -/

/-- The IOKit calls made while a connection is looked for, in order, and the
debug messages written through `a->debug`. -/
inductive IOKitEvent where
  | getMatchingService (name : String)
  | serviceOpen (service : Nat) (type : Nat)
  | objectRelease (service : Nat)
  | debug (msg : String)
deriving DecidableEq, Repr

/-- The registry as it answers at the time of a call: `IOServiceGetMatchingService`
for a class name (0 when nothing matches) and `IOServiceOpen` for a service and
a client type (the status and what it leaves in `connect`). -/
structure IOKit where
  IOServiceGetMatchingService : String → Nat
  IOServiceOpen : Nat → Nat → Int × Nat

/-- The file-level state of one back end: its static connection and the record
of the IOKit calls and debug messages so far. -/
structure Backend where
  connect : Nat
  log : List IOKitEvent
deriving DecidableEq, Repr

/-- State at program start: `static io_connect_t ... = MACH_PORT_NULL`. -/
def Backend.initial : Backend := { connect := MACH_PORT_NULL, log := [] }

/-- Called at launch: resets the static `darwin1_connect` (the `connect` field
of the state) to `MACH_PORT_NULL`. -/
def darwin1_config (st : Backend) : Backend :=
  { st with connect := MACH_PORT_NULL }

/-- Detection of `darwin.c`: returns 1 at once when a connection is bound;
otherwise looks the service up, opens it, and binds the connection on success. -/
def darwin1_detect (k : IOKit) (st : Backend) : Int × Backend :=
  if st.connect ≠ MACH_PORT_NULL then (1, st)
  else
    let service := k.IOServiceGetMatchingService "AppleACPIPlatformExpert"
    let log1 := st.log ++ [IOKitEvent.getMatchingService "AppleACPIPlatformExpert"]
    let opened : Int × Nat × List IOKitEvent :=
      if service ≠ 0 then
        ((k.IOServiceOpen service 0).1, (k.IOServiceOpen service 0).2,
          log1 ++ [IOKitEvent.serviceOpen service 0, IOKitEvent.objectRelease service])
      else (kIOReturnSuccess, MACH_PORT_NULL, log1)
    if service = 0 ∨ kIOReturnSuccess ≠ opened.1 then
      (0, { st with log := opened.2.2 ++ [IOKitEvent.debug "...cannot open AppleACPIPlatformExpert (add boot arg debug=0x144 & run as root)"] })
    else
      (1, { connect := opened.2.1, log := opened.2.2 ++ [IOKitEvent.debug "...using AppleACPIPlatformExpert"] })

/-- Initialisation of `darwin.c`: runs `detect` when nothing is bound, then stores
the static connection in `a->fd`. -/
def darwin1_init (k : IOKit) (st : Backend) (a : pci_access) : Backend × pci_access :=
  let st1 :=
    if st.connect = MACH_PORT_NULL then
      { (darwin1_detect k st).2 with
        log := (darwin1_detect k st).2.log ++ [IOKitEvent.debug "\n"] }
    else st
  (st1, { a with fd := toInt32 st1.connect })

/-- Cleanup of `darwin.c`: an empty function. -/
def darwin1_cleanup (st : Backend) : Backend := st

/-- Called at launch: resets the static `darwin2_connect` (the `connect` field
of the state) to `MACH_PORT_NULL`. -/
def darwin2_config (st : Backend) : Backend :=
  { st with connect := MACH_PORT_NULL }

/-- Detection of `darwin2.c`: returns 1 at once when a connection is bound;
otherwise looks the service up, opens it, and binds the connection on success. -/
def darwin2_detect (k : IOKit) (st : Backend) : Int × Backend :=
  if st.connect ≠ MACH_PORT_NULL then (1, st)
  else
    let service := k.IOServiceGetMatchingService "IOPCIBridge"
    let log1 := st.log ++ [IOKitEvent.getMatchingService "IOPCIBridge"]
    let opened : Int × Nat × List IOKitEvent :=
      if service ≠ 0 then
        ((k.IOServiceOpen service kIOPCIDiagnosticsClientType).1, (k.IOServiceOpen service kIOPCIDiagnosticsClientType).2,
          log1 ++ [IOKitEvent.serviceOpen service kIOPCIDiagnosticsClientType, IOKitEvent.objectRelease service])
      else (kIOReturnSuccess, MACH_PORT_NULL, log1)
    if service = 0 ∨ kIOReturnSuccess ≠ opened.1 then
      (0, { st with log := opened.2.2 ++ [IOKitEvent.debug "...cannot open IOPCIBridge (add boot arg debug=0x144 & run as root)"] })
    else
      (1, { connect := opened.2.1, log := opened.2.2 ++ [IOKitEvent.debug "...using IOPCIBridge"] })

/-- Initialisation of `darwin2.c`: runs `detect` when nothing is bound, then stores
the static connection in `a->fd`. -/
def darwin2_init (k : IOKit) (st : Backend) (a : pci_access) : Backend × pci_access :=
  let st1 :=
    if st.connect = MACH_PORT_NULL then
      { (darwin2_detect k st).2 with
        log := (darwin2_detect k st).2.log ++ [IOKitEvent.debug "\n"] }
    else st
  (st1, { a with fd := toInt32 st1.connect })

/-- Cleanup of `darwin2.c`: an empty function. -/
def darwin2_cleanup (st : Backend) : Backend := st

/-- Called at launch: resets the static `darwin3_connect` (the `connect` field
of the state) to `MACH_PORT_NULL`. -/
def darwin3_config (st : Backend) : Backend :=
  { st with connect := MACH_PORT_NULL }

/-- Detection of `darwin3.c`: returns 1 at once when a connection is bound;
otherwise looks the service up, opens it, and binds the connection on success. -/
def darwin3_detect (k : IOKit) (st : Backend) : Int × Backend :=
  if st.connect ≠ MACH_PORT_NULL then (1, st)
  else
    let service := k.IOServiceGetMatchingService "DirectHWService"
    let log1 := st.log ++ [IOKitEvent.getMatchingService "DirectHWService"]
    let opened : Int × Nat × List IOKitEvent :=
      if service ≠ 0 then
        ((k.IOServiceOpen service 0).1, (k.IOServiceOpen service 0).2,
          log1 ++ [IOKitEvent.serviceOpen service 0, IOKitEvent.objectRelease service])
      else (kIOReturnSuccess, MACH_PORT_NULL, log1)
    if service = 0 ∨ kIOReturnSuccess ≠ opened.1 then
      (0, { st with log := opened.2.2 ++ [IOKitEvent.debug "...cannot open DirectHW"] })
    else
      (1, { connect := opened.2.1, log := opened.2.2 ++ [IOKitEvent.debug "...using DirectHW IOPCIBridge"] })

/-- Initialisation of `darwin3.c`: runs `detect` when nothing is bound, then stores
the static connection in `a->fd`. -/
def darwin3_init (k : IOKit) (st : Backend) (a : pci_access) : Backend × pci_access :=
  let st1 :=
    if st.connect = MACH_PORT_NULL then
      { (darwin3_detect k st).2 with
        log := (darwin3_detect k st).2.log ++ [IOKitEvent.debug "\n"] }
    else st
  (st1, { a with fd := toInt32 st1.connect })

/-- Cleanup of `darwin3.c`: an empty function. -/
def darwin3_cleanup (st : Backend) : Backend := st

/-! ## Sequences of method calls -/

/-- A call of one of the methods `config`, `detect`, `init`, `cleanup` of a back
end, with the access handle it is given and, where the method asks IOKit, the
registry as it answers at that time. -/
inductive BackendOp where
  | config (a : pci_access)
  | detect (k : IOKit)
  | init (k : IOKit) (a : pci_access)
  | cleanup (a : pci_access)

/-- Whether the call is a call of `config`. -/
def BackendOp.isConfig : BackendOp → Bool
  | .config _ => true
  | _ => false

/-- One method call on the back end of `darwin.c`, as a step on its file-level
state (the `int` that `detect` returns and the handle `init` fills are dropped). -/
def darwin1_step (st : Backend) : BackendOp → Backend
  | .config _ => darwin1_config st
  | .detect k => (darwin1_detect k st).2
  | .init k a => (darwin1_init k st a).1
  | .cleanup _ => darwin1_cleanup st

/-- A sequence of method calls on the back end of `darwin.c`, oldest first. -/
def darwin1_run (ops : List BackendOp) (st : Backend) : Backend :=
  ops.foldl darwin1_step st

/-- One method call on the back end of `darwin2.c`, as a step on its file-level
state (the `int` that `detect` returns and the handle `init` fills are dropped). -/
def darwin2_step (st : Backend) : BackendOp → Backend
  | .config _ => darwin2_config st
  | .detect k => (darwin2_detect k st).2
  | .init k a => (darwin2_init k st a).1
  | .cleanup _ => darwin2_cleanup st

/-- A sequence of method calls on the back end of `darwin2.c`, oldest first. -/
def darwin2_run (ops : List BackendOp) (st : Backend) : Backend :=
  ops.foldl darwin2_step st

/-- One method call on the back end of `darwin3.c`, as a step on its file-level
state (the `int` that `detect` returns and the handle `init` fills are dropped). -/
def darwin3_step (st : Backend) : BackendOp → Backend
  | .config _ => darwin3_config st
  | .detect k => (darwin3_detect k st).2
  | .init k a => (darwin3_init k st a).1
  | .cleanup _ => darwin3_cleanup st

/-- A sequence of method calls on the back end of `darwin3.c`, oldest first. -/
def darwin3_run (ops : List BackendOp) (st : Backend) : Backend :=
  ops.foldl darwin3_step st

/-! ## The uniform contract -/

/-- The failure of the uniform contract, in the words of the specification:
`TransactionFailed`, carrying the raw status code and a human-readable
description of it. -/
structure TransactionFailed where
  status : Int
  description : String
deriving DecidableEq, Repr

/-- What the caller of a read or write gets behind the uniform contract: the
returned `int` with the buffer, or `TransactionFailed` with the status and the
description the error hook was given (the format string, which names the
variant, is not part of it). -/
def Run.observed {σ P : Type} (r : Run σ P) : Except TransactionFailed (Int × List Nat) :=
  match r.result with
  | .ok v => .ok v
  | .error f => .error { status := f.status, description := f.description }

/-- The content of a request block apart from its field layout: space-type tag,
bit width, options, 64-bit address word and value. -/
structure RequestBlock where
  spaceTag : Nat
  bitWidth : Nat
  options : Nat
  addr64 : Nat
  value : Nat
deriving DecidableEq, Repr

/-- Content of an `AddressSpaceParam` (its `bitOffset` has no counterpart in the
other layout). -/
def AddressSpaceParam.block (p : AddressSpaceParam) : RequestBlock :=
  { spaceTag := p.spaceID, bitWidth := p.bitWidth, options := p.options,
    addr64 := p.address.addr64, value := p.value }

/-- Content of an `IOPCIDiagnosticsParameters` (its `_resv` has no counterpart in
the other layout). -/
def IOPCIDiagnosticsParameters.block (p : IOPCIDiagnosticsParameters) : RequestBlock :=
  { spaceTag := p.spaceType, bitWidth := p.bitWidth, options := p.options,
    addr64 := p.address.addr64, value := p.value }

/-! ## Mock transports, probes and registries -/

/-- A stateless transport that answers every request with `status` and the
block `reply input`; the generic block transfer is a stub returning 1. -/
def replyHost {P : Type} (status : Int) (reply : P → P) : Host Unit P :=
  { IOConnectCallStructMethod := fun s c => (status, reply c.input, s)
    mach_error_string := fun e => if e = 0 then "success" else "failure"
    pci_generic_block_read := fun s _ _ buf _ => (s, .ok (1, buf))
    pci_generic_block_write := fun s _ _ buf _ => (s, .ok (1, buf)) }

/-- Device 0000:00:00.0 behind connection 3. -/
def dev0 : pci_dev := { access := { fd := 3 }, domain := 0, bus := 0, dev := 0, func := 0 }

def zeroAddress : IOACPIAddress :=
  { offset := 0, function := 0, device := 0, bus := 0, segment := 0, reserved := 0 }

def zeroParam1 : AddressSpaceParam :=
  { value := 0, spaceID := 0, address := zeroAddress, bitWidth := 0, bitOffset := 0, options := 0 }

def zeroParam2 : IOPCIDiagnosticsParameters :=
  { options := 0, spaceType := 0, bitWidth := 0, _resv := 0, value := 0, address := zeroAddress }

/-- Device 0001:02:03.4 behind connection 3. -/
def dev1 : pci_dev := { access := { fd := 3 }, domain := 1, bus := 2, dev := 3, func := 4 }

/-- The mock transport of the round-trip law, as a property of a host: a request
on the write method `wr` succeeds, and a request on the read method `rd` that
follows it with the same address word succeeds and carries, in the value field
of its response, the value field of that write request. -/
def StoresValues {σ P : Type} (h : Host σ P) (rd wr : Nat) (addr value : P → Nat) : Prop :=
  ∀ (s : σ) (cw cr : Call P), cw.index = wr → cr.index = rd → addr cr.input = addr cw.input →
    (h.IOConnectCallStructMethod s cw).1 = kIOReturnSuccess ∧
    (h.IOConnectCallStructMethod (h.IOConnectCallStructMethod s cw).2.2 cr).1 = kIOReturnSuccess ∧
    value (h.IOConnectCallStructMethod (h.IOConnectCallStructMethod s cw).2.2 cr).2.1
      = value cw.input

/-- A concrete mock transport: its state maps address words to stored values;
method `wr` stores, method `rd` fetches (leaving the block as it came when
nothing was stored), any other method fails. -/
def storeHost {P : Type} (rd wr : Nat) (addr value : P → Nat) (setValue : P → Nat → P) :
    Host (Nat → Option Nat) P :=
  { IOConnectCallStructMethod := fun s c =>
      if c.index = wr then
        (kIOReturnSuccess, c.input, fun a => if a = addr c.input then some (value c.input) else s a)
      else if c.index = rd then
        (kIOReturnSuccess, (match s (addr c.input) with
          | some v => setValue c.input v
          | none => c.input), s)
      else (-1, c.input, s)
    mach_error_string := fun e => if e = 0 then "success" else "failure"
    pci_generic_block_read := fun s _ _ buf _ => (s, .ok (1, buf))
    pci_generic_block_write := fun s _ _ buf _ => (s, .ok (1, buf)) }

def storeHost1 : Host (Nat → Option Nat) AddressSpaceParam :=
  storeHost kACPIMethodAddressSpaceRead kACPIMethodAddressSpaceWrite
    (fun p => p.address.addr64) (fun p => p.value) (fun p v => { p with value := v })

def storeHost2 : Host (Nat → Option Nat) IOPCIDiagnosticsParameters :=
  storeHost kIOPCIDiagnosticsMethodRead kIOPCIDiagnosticsMethodWrite
    (fun p => p.address.addr64) (fun p => p.value) (fun p v => { p with value := v })

def storeHost3 : Host (Nat → Option Nat) IOPCIDiagnosticsParameters :=
  storeHost kRead kWrite
    (fun p => p.address.addr64) (fun p => p.value) (fun p v => { p with value := v })

/-- A host whose transport refuses every request (status -1) and whose generic
block transfer returns 0 and fills the buffer with the byte `fill`. -/
def blockHost {P : Type} (fill : Nat) : Host Unit P :=
  { IOConnectCallStructMethod := fun s c => (-1, c.input, s)
    mach_error_string := fun e => if e = 0 then "success" else "failure"
    pci_generic_block_read := fun s _ _ buf _ => (s, .ok (0, buf.map (fun _ => fill)))
    pci_generic_block_write := fun s _ _ buf _ => (s, .ok (0, buf.map (fun _ => fill))) }

/-- A probe for the scenario of one bridge on bus 0 with secondary bus 5: the
probe of bus 0 marks 0 and 5, every other probe marks its own bus. -/
def bridgeProbe : BusProbe Unit := fun w _ _ b => (if b = 0 then [0, 5] else [b], w)

/-- A registry with two host bridges (entries 2 and 4); entry 3 is a bridge
below the host bridge 2. -/
def twoBridges : Node :=
  .mk 0 false [.mk 1 false [.mk 2 true [.mk 3 true []], .mk 4 true []], .mk 5 false []]

/-- A registry without any PCI bridge. -/
def noBridges : Node := .mk 0 false [.mk 1 false [], .mk 2 false []]

/-- A registry in which every class name matches service 7 and every open
succeeds with connection 4611. -/
def presentKit : IOKit :=
  { IOServiceGetMatchingService := fun _ => 7
    IOServiceOpen := fun _ _ => (kIOReturnSuccess, 4611) }

/-- A registry in which no class name matches. -/
def absentKit : IOKit :=
  { IOServiceGetMatchingService := fun _ => 0
    IOServiceOpen := fun _ _ => (-536870207, 0) }

/-- A registry in which every class name matches service 8 and every open
succeeds with connection 9001. -/
def otherKit : IOKit :=
  { IOServiceGetMatchingService := fun _ => 8
    IOServiceOpen := fun _ _ => (kIOReturnSuccess, 9001) }

/-- A registry in which every class name matches service 7 and every open is
refused with 0xE00002C1 (not privileged), leaving `connect` as it was. -/
def lockedKit : IOKit :=
  { IOServiceGetMatchingService := fun _ => 7
    IOServiceOpen := fun _ _ => (-536870207, MACH_PORT_NULL) }

/-! # Theorems -/

/-! ## Byte codec -/

theorem le_bytes_length (n v : Nat) : (le_bytes n v).length = n := by
  induction n generalizing v with
  | zero => rfl
  | succ n ih => simp [le_bytes, ih]

theorem le_decode_le_bytes (n v : Nat) : le_decode (le_bytes n v) = v % 256 ^ n := by
  induction n generalizing v with
  | zero => simp [le_bytes, le_decode, Nat.mod_one]
  | succ n ih =>
    simp only [le_bytes, le_decode, ih, Nat.mod_mod]
    rw [pow_succ, mul_comm (256 ^ n) 256, Nat.mod_mul]

theorem read_store_eq (buf : List Nat) (w V : Nat) (hw : w = 1 ∨ w = 2 ∨ w = 4) :
    read_store buf (w : Int) V = le_bytes w V ++ buf.drop w := by
  rcases hw with rfl | rfl | rfl
  · simp [read_store, poke, le_bytes]
  · simp [read_store, poke, le_bytes]
    omega
  · simp [read_store, poke, le_bytes]
    omega

theorem width_pow (w : Nat) : 256 ^ w = 2 ^ (8 * w) := by
  rw [pow_mul]
  norm_num


/-! ## Reads decode the low-order bytes -/

theorem darwin1_read_ok {σ : Type} (h : Host σ AddressSpaceParam) (s : σ)
    (param0 : AddressSpaceParam) (d : pci_dev) (pos : Int) (buf : List Nat) (w V : Nat)
    (hw : w = 1 ∨ w = 2 ∨ w = 4)
    (hs : (MyIOConnectCallStructMethod h s (darwin1_read_call param0 d pos w)).1 = kIOReturnSuccess)
    (hv : (MyIOConnectCallStructMethod h s (darwin1_read_call param0 d pos w)).2.1.value = V) :
    (darwin1_read h s param0 d pos buf w).result = .ok (1, le_bytes w V ++ buf.drop w) := by
  have hlen : ((w : Int) = 1 ∨ (w : Int) = 2 ∨ (w : Int) = 4) := by omega
  simp only [darwin1_read, hlen, not_true_eq_false, if_false, hs, ne_eq, hv, read_store_eq buf w V hw]

theorem darwin2_read_ok {σ : Type} (h : Host σ IOPCIDiagnosticsParameters) (s : σ)
    (param0 : IOPCIDiagnosticsParameters) (d : pci_dev) (pos : Int) (buf : List Nat) (w V : Nat)
    (hw : w = 1 ∨ w = 2 ∨ w = 4)
    (hs : (MyIOConnectCallStructMethod h s (darwin2_read_call param0 d pos w)).1 = kIOReturnSuccess)
    (hv : (MyIOConnectCallStructMethod h s (darwin2_read_call param0 d pos w)).2.1.value = V) :
    (darwin2_read h s param0 d pos buf w).result = .ok (1, le_bytes w V ++ buf.drop w) := by
  have hlen : ((w : Int) = 1 ∨ (w : Int) = 2 ∨ (w : Int) = 4) := by omega
  simp only [darwin2_read, hlen, not_true_eq_false, if_false, hs, ne_eq, hv, read_store_eq buf w V hw]

theorem darwin3_read_ok {σ : Type} (h : Host σ IOPCIDiagnosticsParameters) (s : σ)
    (param0 : IOPCIDiagnosticsParameters) (d : pci_dev) (pos : Int) (buf : List Nat) (w V : Nat)
    (hw : w = 1 ∨ w = 2 ∨ w = 4)
    (hs : (MyIOConnectCallStructMethod h s (darwin3_read_call param0 d pos w)).1 = kIOReturnSuccess)
    (hv : (MyIOConnectCallStructMethod h s (darwin3_read_call param0 d pos w)).2.1.value = V) :
    (darwin3_read h s param0 d pos buf w).result = .ok (1, le_bytes w V ++ buf.drop w) := by
  have hlen : ((w : Int) = 1 ∨ (w : Int) = 2 ∨ (w : Int) = 4) := by omega
  simp only [darwin3_read, hlen, not_true_eq_false, if_false, hs, ne_eq, hv, read_store_eq buf w V hw]

/-- C1. For each of `darwin1_read`, `darwin2_read`, `darwin3_read`, every width
`w` in 1, 2, 4 and every value `V` the transport leaves in the response block
together with a success status: the read returns 1 and the caller's buffer
starts with exactly the `w` low-order bytes of `V`, least significant first
(the rest of the buffer is untouched), and those bytes decode to
`V mod 2^(8*w)`, a zero-extended value below `2^(8*w)`. -/
theorem read_stores_low_bytes_zero_extended {σ : Type} (w V : Nat) (hw : w = 1 ∨ w = 2 ∨ w = 4)
    (d : pci_dev) (pos : Int) (buf : List Nat) :
    (∀ (h : Host σ AddressSpaceParam) (s : σ) (param0 : AddressSpaceParam),
        (MyIOConnectCallStructMethod h s (darwin1_read_call param0 d pos w)).1 = kIOReturnSuccess →
        (MyIOConnectCallStructMethod h s (darwin1_read_call param0 d pos w)).2.1.value = V →
        (darwin1_read h s param0 d pos buf w).result = .ok (1, le_bytes w V ++ buf.drop w)) ∧
    (∀ (h : Host σ IOPCIDiagnosticsParameters) (s : σ) (param0 : IOPCIDiagnosticsParameters),
        (MyIOConnectCallStructMethod h s (darwin2_read_call param0 d pos w)).1 = kIOReturnSuccess →
        (MyIOConnectCallStructMethod h s (darwin2_read_call param0 d pos w)).2.1.value = V →
        (darwin2_read h s param0 d pos buf w).result = .ok (1, le_bytes w V ++ buf.drop w)) ∧
    (∀ (h : Host σ IOPCIDiagnosticsParameters) (s : σ) (param0 : IOPCIDiagnosticsParameters),
        (MyIOConnectCallStructMethod h s (darwin3_read_call param0 d pos w)).1 = kIOReturnSuccess →
        (MyIOConnectCallStructMethod h s (darwin3_read_call param0 d pos w)).2.1.value = V →
        (darwin3_read h s param0 d pos buf w).result = .ok (1, le_bytes w V ++ buf.drop w)) ∧
    (le_bytes w V).length = w ∧
    le_decode (le_bytes w V) = V % 2 ^ (8 * w) ∧
    le_decode (le_bytes w V) < 2 ^ (8 * w) := by
  refine ⟨fun h s p hs hv => darwin1_read_ok h s p d pos buf w V hw hs hv,
    fun h s p hs hv => darwin2_read_ok h s p d pos buf w V hw hs hv,
    fun h s p hs hv => darwin3_read_ok h s p d pos buf w V hw hs hv,
    le_bytes_length w V, ?_, ?_⟩
  · rw [le_decode_le_bytes, width_pow]
  · rw [le_decode_le_bytes, width_pow]
    exact Nat.mod_lt _ (by positivity)

/-- Worked example for C1: a transport answering success with value 0x12345678
makes the 4-byte read at 0000:00:00.0 offset 0 store 78 56 34 12 (decoding to
0x12345678) and the 1-byte read store 78 (decoding to 0x78), in all three
variants. -/
theorem read_stores_low_bytes_zero_extended_witness :
    ((darwin1_read (replyHost 0 (fun p => { p with value := 305419896 })) () zeroParam1 dev0 0
        [0, 0, 0, 0] 4).result = .ok (1, [120, 86, 52, 18]) ∧
      (darwin2_read (replyHost 0 (fun p => { p with value := 305419896 })) () zeroParam2 dev0 0
        [0, 0, 0, 0] 4).result = .ok (1, [120, 86, 52, 18]) ∧
      (darwin3_read (replyHost 0 (fun p => { p with value := 305419896 })) () zeroParam2 dev0 0
        [0, 0, 0, 0] 4).result = .ok (1, [120, 86, 52, 18]) ∧
      le_decode [120, 86, 52, 18] = 305419896) ∧
    ((darwin1_read (replyHost 0 (fun p => { p with value := 305419896 })) () zeroParam1 dev0 0
        [0, 0, 0, 0] 1).result = .ok (1, [120, 0, 0, 0]) ∧
      (darwin2_read (replyHost 0 (fun p => { p with value := 305419896 })) () zeroParam2 dev0 0
        [0, 0, 0, 0] 1).result = .ok (1, [120, 0, 0, 0]) ∧
      (darwin3_read (replyHost 0 (fun p => { p with value := 305419896 })) () zeroParam2 dev0 0
        [0, 0, 0, 0] 1).result = .ok (1, [120, 0, 0, 0]) ∧
      le_decode [120] = 120) := by
  have h4 := @read_stores_low_bytes_zero_extended Unit 4 305419896 (by decide) dev0 0
    [0, 0, 0, 0]
  have h1 := @read_stores_low_bytes_zero_extended Unit 1 305419896 (by decide) dev0 0
    [0, 0, 0, 0]
  refine ⟨⟨?_, ?_, ?_, by decide⟩, ⟨?_, ?_, ?_, by decide⟩⟩
  · exact h4.1 (replyHost 0 _) () zeroParam1 rfl rfl
  · exact h4.2.1 (replyHost 0 _) () zeroParam2 rfl rfl
  · exact h4.2.2.1 (replyHost 0 _) () zeroParam2 rfl rfl
  · exact h1.1 (replyHost 0 _) () zeroParam1 rfl rfl
  · exact h1.2.1 (replyHost 0 _) () zeroParam2 rfl rfl
  · exact h1.2.2.1 (replyHost 0 _) () zeroParam2 rfl rfl

/-! ## The address word -/

theorem bitfield_natCast (w n : Nat) : bitfield w (n : Int) = n % 2 ^ w := by
  unfold bitfield
  have h : ((n : Int) % (2 : Int) ^ w) = ((n % 2 ^ w : Nat) : Int) := by
    push_cast
    rfl
  rw [h, Int.toNat_natCast]

theorem pci_address_addr64 (d : pci_dev) (o g : Nat) (ho : o < 65536) (hf : d.func < 8)
    (hd : d.dev < 32) (hb : d.bus < 256) (hg : g < 65536) (hdom : d.domain = g) :
    (pci_address d (o : Int)).addr64
      = o + d.func * 2 ^ 16 + d.dev * 2 ^ 19 + d.bus * 2 ^ 24 + g * 2 ^ 32 := by
  have h0 : bitfield 16 0 = 0 := by
    have := bitfield_natCast 16 0
    simpa using this
  simp only [pci_address, IOACPIAddress.addr64, packFields, hdom, bitfield_natCast, h0]
  norm_num
  omega

theorem pci_address_word (d : pci_dev) (pos : Int) (hpos : 0 ≤ pos ∧ pos < 65536)
    (hf : d.func < 8) (hd : d.dev < 32) (hb : d.bus < 256)
    (hdom : 0 ≤ d.domain ∧ d.domain < 65536) :
    (pci_address d pos).addr64 = pos.toNat + d.func * 2 ^ 16 + d.dev * 2 ^ 19 + d.bus * 2 ^ 24 + d.domain.toNat * 2 ^ 32 := by
  have e1 : pos = (pos.toNat : Int) := (Int.toNat_of_nonneg hpos.1).symm
  have e2 : d.domain = (d.domain.toNat : Int) := (Int.toNat_of_nonneg hdom.1).symm
  have h := pci_address_addr64 d pos.toNat d.domain.toNat (by omega) hf hd hb (by omega) e2
  rw [← e1] at h
  exact h

/-- C2. For the read and the write of each variant, every width in 1, 2, 4 and
every address with offset below 2^16, function below 8, device below 32, bus
below 256 and domain below 2^16, exactly one request block is sent and its
64-bit address word is offset + function*2^16 + device*2^19 + bus*2^24 +
domain*2^32; in that word the offset is bits 0-15, the function bits 16-18, the
device bits 19-23, the bus bits 24-31, the segment bits 32-47, and bits 48-63
are zero. -/
theorem request_address_word {σ : Type} (d : pci_dev) (pos len : Int) (buf : List Nat)
    (hlen : len = 1 ∨ len = 2 ∨ len = 4) (hpos : 0 ≤ pos ∧ pos < 65536)
    (hf : d.func < 8) (hd : d.dev < 32) (hb : d.bus < 256)
    (hdom : 0 ≤ d.domain ∧ d.domain < 65536) :
    (∀ (h : Host σ AddressSpaceParam) (s : σ) (param0 : AddressSpaceParam),
        (darwin1_read h s param0 d pos buf len).calls.map (fun c => c.input.address.addr64)
          = [pos.toNat + d.func * 2 ^ 16 + d.dev * 2 ^ 19 + d.bus * 2 ^ 24 + d.domain.toNat * 2 ^ 32]) ∧
    (∀ (h : Host σ AddressSpaceParam) (s : σ) (param0 : AddressSpaceParam),
        (darwin1_write h s param0 d pos buf len).calls.map (fun c => c.input.address.addr64)
          = [pos.toNat + d.func * 2 ^ 16 + d.dev * 2 ^ 19 + d.bus * 2 ^ 24 + d.domain.toNat * 2 ^ 32]) ∧
    (∀ (h : Host σ IOPCIDiagnosticsParameters) (s : σ) (param0 : IOPCIDiagnosticsParameters),
        (darwin2_read h s param0 d pos buf len).calls.map (fun c => c.input.address.addr64)
          = [pos.toNat + d.func * 2 ^ 16 + d.dev * 2 ^ 19 + d.bus * 2 ^ 24 + d.domain.toNat * 2 ^ 32]) ∧
    (∀ (h : Host σ IOPCIDiagnosticsParameters) (s : σ) (param0 : IOPCIDiagnosticsParameters),
        (darwin2_write h s param0 d pos buf len).calls.map (fun c => c.input.address.addr64)
          = [pos.toNat + d.func * 2 ^ 16 + d.dev * 2 ^ 19 + d.bus * 2 ^ 24 + d.domain.toNat * 2 ^ 32]) ∧
    (∀ (h : Host σ IOPCIDiagnosticsParameters) (s : σ) (param0 : IOPCIDiagnosticsParameters),
        (darwin3_read h s param0 d pos buf len).calls.map (fun c => c.input.address.addr64)
          = [pos.toNat + d.func * 2 ^ 16 + d.dev * 2 ^ 19 + d.bus * 2 ^ 24 + d.domain.toNat * 2 ^ 32]) ∧
    (∀ (h : Host σ IOPCIDiagnosticsParameters) (s : σ) (param0 : IOPCIDiagnosticsParameters),
        (darwin3_write h s param0 d pos buf len).calls.map (fun c => c.input.address.addr64)
          = [pos.toNat + d.func * 2 ^ 16 + d.dev * 2 ^ 19 + d.bus * 2 ^ 24 + d.domain.toNat * 2 ^ 32]) ∧
    (pos.toNat + d.func * 2 ^ 16 + d.dev * 2 ^ 19 + d.bus * 2 ^ 24 + d.domain.toNat * 2 ^ 32) % 2 ^ 16 = pos.toNat ∧
    (pos.toNat + d.func * 2 ^ 16 + d.dev * 2 ^ 19 + d.bus * 2 ^ 24 + d.domain.toNat * 2 ^ 32) / 2 ^ 16 % 2 ^ 3 = d.func ∧
    (pos.toNat + d.func * 2 ^ 16 + d.dev * 2 ^ 19 + d.bus * 2 ^ 24 + d.domain.toNat * 2 ^ 32) / 2 ^ 19 % 2 ^ 5 = d.dev ∧
    (pos.toNat + d.func * 2 ^ 16 + d.dev * 2 ^ 19 + d.bus * 2 ^ 24 + d.domain.toNat * 2 ^ 32) / 2 ^ 24 % 2 ^ 8 = d.bus ∧
    (pos.toNat + d.func * 2 ^ 16 + d.dev * 2 ^ 19 + d.bus * 2 ^ 24 + d.domain.toNat * 2 ^ 32) / 2 ^ 32 % 2 ^ 16 = d.domain.toNat ∧
    (pos.toNat + d.func * 2 ^ 16 + d.dev * 2 ^ 19 + d.bus * 2 ^ 24 + d.domain.toNat * 2 ^ 32) / 2 ^ 48 = 0 := by
  have hw := pci_address_word d pos hpos hf hd hb hdom
  have hp : pos.toNat < 65536 := by omega
  have hg : d.domain.toNat < 65536 := by omega
  refine ⟨?_, ?_, ?_, ?_, ?_, ?_, ?_, ?_, ?_, ?_, ?_, ?_⟩
  · intro h s p
    simp [darwin1_read, hlen, darwin1_read_call, darwin1_read_param, hw, apply_ite]
  · intro h s p
    simp [darwin1_write, hlen, darwin1_write_call, darwin1_write_param, hw, apply_ite]
  · intro h s p
    simp [darwin2_read, hlen, darwin2_read_call, darwin2_read_param, hw, apply_ite]
  · intro h s p
    simp [darwin2_write, hlen, darwin2_write_call, darwin2_write_param, hw, apply_ite]
  · intro h s p
    simp [darwin3_read, hlen, darwin3_read_call, darwin3_read_param, hw, apply_ite]
  · intro h s p
    simp [darwin3_write, hlen, darwin3_write_call, darwin3_write_param, hw, apply_ite]
  all_goals omega

/-- Worked example for C2: a 4-byte access at offset 0x40 of device 0001:02:03.4
carries the address word 0x1_021C_0040 in the read and the write of every
variant. -/
theorem request_address_word_witness :
    (darwin1_read (replyHost 0 id) () zeroParam1 dev1 64 [0, 0, 0, 0] 4).calls.map
        (fun c => c.input.address.addr64) = [4330356800] ∧
    (darwin1_write (replyHost 0 id) () zeroParam1 dev1 64 [0, 0, 0, 0] 4).calls.map
        (fun c => c.input.address.addr64) = [4330356800] ∧
    (darwin2_read (replyHost 0 id) () zeroParam2 dev1 64 [0, 0, 0, 0] 4).calls.map
        (fun c => c.input.address.addr64) = [4330356800] ∧
    (darwin2_write (replyHost 0 id) () zeroParam2 dev1 64 [0, 0, 0, 0] 4).calls.map
        (fun c => c.input.address.addr64) = [4330356800] ∧
    (darwin3_read (replyHost 0 id) () zeroParam2 dev1 64 [0, 0, 0, 0] 4).calls.map
        (fun c => c.input.address.addr64) = [4330356800] ∧
    (darwin3_write (replyHost 0 id) () zeroParam2 dev1 64 [0, 0, 0, 0] 4).calls.map
        (fun c => c.input.address.addr64) = [4330356800] := by
  have h := @request_address_word Unit dev1 64 4 [0, 0, 0, 0] (by decide) (by decide) (by decide)
    (by decide) (by decide) (by decide)
  exact ⟨h.1 _ _ _, h.2.1 _ _ _, h.2.2.1 _ _ _, h.2.2.2.1 _ _ _, h.2.2.2.2.1 _ _ _,
    h.2.2.2.2.2.1 _ _ _⟩

/-! ## Write followed by read -/

theorem write_load_le_bytes (w v : Nat) (rest : List Nat) (hw : w = 1 ∨ w = 2 ∨ w = 4) :
    write_load (le_bytes w v ++ rest) (w : Int) = some (v % 2 ^ (8 * w)) := by
  have ht : (le_bytes w v ++ rest).take w = le_bytes w v := by
    rw [List.take_append_of_le_length (by rw [le_bytes_length])]
    exact List.take_of_length_le (by rw [le_bytes_length])
  have hp : peek (le_bytes w v ++ rest) w = v % 2 ^ (8 * w) := by
    rw [peek, ht, le_decode_le_bytes, width_pow]
  rcases hw with rfl | rfl | rfl
  · simp only [write_load, Nat.cast_one, if_true, hp]
  · have h2 : ¬ ((2 : Int) = 1) := by decide
    simp only [write_load, Nat.cast_ofNat, h2, if_false, if_true, hp]
  · have h1 : ¬ ((4 : Int) = 1) := by decide
    have h2 : ¬ ((4 : Int) = 2) := by decide
    simp only [write_load, Nat.cast_ofNat, h1, h2, if_false, if_true, hp]

theorem storeHost_stores {P : Type} (rd wr : Nat) (hne : rd ≠ wr) (addr value : P → Nat)
    (setValue : P → Nat → P) (hset : ∀ p v, value (setValue p v) = v) :
    StoresValues (storeHost rd wr addr value setValue) rd wr addr value := by
  intro s cw cr hw hr ha
  simp [storeHost, hw, hr, hne, ha, hset]

theorem darwin1_write_ok {σ : Type} (h : Host σ AddressSpaceParam) (s : σ)
    (param0 : AddressSpaceParam) (d : pci_dev) (pos : Int) (buf : List Nat) (len : Int)
    (hlen : len = 1 ∨ len = 2 ∨ len = 4)
    (hs : (MyIOConnectCallStructMethod h s (darwin1_write_call param0 d pos buf len)).1
      = kIOReturnSuccess) :
    (darwin1_write h s param0 d pos buf len).result = .ok (1, buf) ∧
    (darwin1_write h s param0 d pos buf len).state
      = (MyIOConnectCallStructMethod h s (darwin1_write_call param0 d pos buf len)).2.2 := by
  simp only [darwin1_write, hlen, not_true_eq_false, if_false, hs, ne_eq, and_self]

theorem darwin1_write_read {σ : Type} (h : Host σ AddressSpaceParam)
    (hm : StoresValues h kACPIMethodAddressSpaceRead kACPIMethodAddressSpaceWrite
      (fun p => p.address.addr64) (fun p => p.value))
    (s : σ) (pw pr : AddressSpaceParam) (d : pci_dev) (pos : Int) (w v : Nat)
    (hw : w = 1 ∨ w = 2 ∨ w = 4) (rest buf : List Nat) :
    (darwin1_write h s pw d pos (le_bytes w v ++ rest) w).result
        = .ok (1, le_bytes w v ++ rest) ∧
    (darwin1_read h (darwin1_write h s pw d pos (le_bytes w v ++ rest) w).state pr d pos buf
        w).result = .ok (1, le_bytes w (v % 2 ^ (8 * w)) ++ buf.drop w) := by
  have hlen : ((w : Int) = 1 ∨ (w : Int) = 2 ∨ (w : Int) = 4) := by omega
  obtain ⟨h1, h2, h3⟩ := hm s (darwin1_write_call pw d pos (le_bytes w v ++ rest) w)
    (darwin1_read_call pr d pos w) rfl rfl rfl
  obtain ⟨hres, hst⟩ := darwin1_write_ok h s pw d pos (le_bytes w v ++ rest) w hlen h1
  refine ⟨hres, ?_⟩
  rw [hst]
  apply darwin1_read_ok h _ pr d pos buf w _ hw h2
  refine Eq.trans h3 ?_
  simp only [darwin1_write_call, darwin1_write_param, write_load_le_bytes w v rest hw,
    Option.getD_some]

theorem darwin2_write_ok {σ : Type} (h : Host σ IOPCIDiagnosticsParameters) (s : σ)
    (param0 : IOPCIDiagnosticsParameters) (d : pci_dev) (pos : Int) (buf : List Nat) (len : Int)
    (hlen : len = 1 ∨ len = 2 ∨ len = 4)
    (hs : (MyIOConnectCallStructMethod h s (darwin2_write_call param0 d pos buf len)).1
      = kIOReturnSuccess) :
    (darwin2_write h s param0 d pos buf len).result = .ok (1, buf) ∧
    (darwin2_write h s param0 d pos buf len).state
      = (MyIOConnectCallStructMethod h s (darwin2_write_call param0 d pos buf len)).2.2 := by
  simp only [darwin2_write, hlen, not_true_eq_false, if_false, hs, ne_eq, and_self]

theorem darwin2_write_read {σ : Type} (h : Host σ IOPCIDiagnosticsParameters)
    (hm : StoresValues h kIOPCIDiagnosticsMethodRead kIOPCIDiagnosticsMethodWrite
      (fun p => p.address.addr64) (fun p => p.value))
    (s : σ) (pw pr : IOPCIDiagnosticsParameters) (d : pci_dev) (pos : Int) (w v : Nat)
    (hw : w = 1 ∨ w = 2 ∨ w = 4) (rest buf : List Nat) :
    (darwin2_write h s pw d pos (le_bytes w v ++ rest) w).result
        = .ok (1, le_bytes w v ++ rest) ∧
    (darwin2_read h (darwin2_write h s pw d pos (le_bytes w v ++ rest) w).state pr d pos buf
        w).result = .ok (1, le_bytes w (v % 2 ^ (8 * w)) ++ buf.drop w) := by
  have hlen : ((w : Int) = 1 ∨ (w : Int) = 2 ∨ (w : Int) = 4) := by omega
  obtain ⟨h1, h2, h3⟩ := hm s (darwin2_write_call pw d pos (le_bytes w v ++ rest) w)
    (darwin2_read_call pr d pos w) rfl rfl rfl
  obtain ⟨hres, hst⟩ := darwin2_write_ok h s pw d pos (le_bytes w v ++ rest) w hlen h1
  refine ⟨hres, ?_⟩
  rw [hst]
  apply darwin2_read_ok h _ pr d pos buf w _ hw h2
  refine Eq.trans h3 ?_
  simp only [darwin2_write_call, darwin2_write_param, write_load_le_bytes w v rest hw,
    Option.getD_some]

theorem darwin3_write_ok {σ : Type} (h : Host σ IOPCIDiagnosticsParameters) (s : σ)
    (param0 : IOPCIDiagnosticsParameters) (d : pci_dev) (pos : Int) (buf : List Nat) (len : Int)
    (hlen : len = 1 ∨ len = 2 ∨ len = 4)
    (hs : (MyIOConnectCallStructMethod h s (darwin3_write_call param0 d pos buf len)).1
      = kIOReturnSuccess) :
    (darwin3_write h s param0 d pos buf len).result = .ok (1, buf) ∧
    (darwin3_write h s param0 d pos buf len).state
      = (MyIOConnectCallStructMethod h s (darwin3_write_call param0 d pos buf len)).2.2 := by
  simp only [darwin3_write, hlen, not_true_eq_false, if_false, hs, ne_eq, and_self]

theorem darwin3_write_read {σ : Type} (h : Host σ IOPCIDiagnosticsParameters)
    (hm : StoresValues h kRead kWrite
      (fun p => p.address.addr64) (fun p => p.value))
    (s : σ) (pw pr : IOPCIDiagnosticsParameters) (d : pci_dev) (pos : Int) (w v : Nat)
    (hw : w = 1 ∨ w = 2 ∨ w = 4) (rest buf : List Nat) :
    (darwin3_write h s pw d pos (le_bytes w v ++ rest) w).result
        = .ok (1, le_bytes w v ++ rest) ∧
    (darwin3_read h (darwin3_write h s pw d pos (le_bytes w v ++ rest) w).state pr d pos buf
        w).result = .ok (1, le_bytes w (v % 2 ^ (8 * w)) ++ buf.drop w) := by
  have hlen : ((w : Int) = 1 ∨ (w : Int) = 2 ∨ (w : Int) = 4) := by omega
  obtain ⟨h1, h2, h3⟩ := hm s (darwin3_write_call pw d pos (le_bytes w v ++ rest) w)
    (darwin3_read_call pr d pos w) rfl rfl rfl
  obtain ⟨hres, hst⟩ := darwin3_write_ok h s pw d pos (le_bytes w v ++ rest) w hlen h1
  refine ⟨hres, ?_⟩
  rw [hst]
  apply darwin3_read_ok h _ pr d pos buf w _ hw h2
  refine Eq.trans h3 ?_
  simp only [darwin3_write_call, darwin3_write_param, write_load_le_bytes w v rest hw,
    Option.getD_some]

/-- C3. For each variant, every device and offset, every width `w` in 1, 2, 4 and
every value `v`: against a transport that stores the value field of a write
request under its address word and returns it in the value field of a later
read request with the same address word, writing the `w` little-endian bytes of
`v` succeeds, and the read that follows returns 1 with a buffer whose first `w`
bytes are those of `v mod 2^(8*w)`, which decode to `v mod 2^(8*w)`. -/
theorem write_then_read_round_trip {σ : Type} (d : pci_dev) (pos : Int) (w v : Nat)
    (hw : w = 1 ∨ w = 2 ∨ w = 4) (rest buf : List Nat) :
    (∀ (h : Host σ AddressSpaceParam),
        StoresValues h kACPIMethodAddressSpaceRead kACPIMethodAddressSpaceWrite
          (fun p => p.address.addr64) (fun p => p.value) →
        ∀ (s : σ) (pw pr : AddressSpaceParam),
          (darwin1_write h s pw d pos (le_bytes w v ++ rest) w).result
            = .ok (1, le_bytes w v ++ rest) ∧
          (darwin1_read h (darwin1_write h s pw d pos (le_bytes w v ++ rest) w).state pr d pos
            buf w).result = .ok (1, le_bytes w (v % 2 ^ (8 * w)) ++ buf.drop w)) ∧
    (∀ (h : Host σ IOPCIDiagnosticsParameters),
        StoresValues h kIOPCIDiagnosticsMethodRead kIOPCIDiagnosticsMethodWrite
          (fun p => p.address.addr64) (fun p => p.value) →
        ∀ (s : σ) (pw pr : IOPCIDiagnosticsParameters),
          (darwin2_write h s pw d pos (le_bytes w v ++ rest) w).result
            = .ok (1, le_bytes w v ++ rest) ∧
          (darwin2_read h (darwin2_write h s pw d pos (le_bytes w v ++ rest) w).state pr d pos
            buf w).result = .ok (1, le_bytes w (v % 2 ^ (8 * w)) ++ buf.drop w)) ∧
    (∀ (h : Host σ IOPCIDiagnosticsParameters),
        StoresValues h kRead kWrite
          (fun p => p.address.addr64) (fun p => p.value) →
        ∀ (s : σ) (pw pr : IOPCIDiagnosticsParameters),
          (darwin3_write h s pw d pos (le_bytes w v ++ rest) w).result
            = .ok (1, le_bytes w v ++ rest) ∧
          (darwin3_read h (darwin3_write h s pw d pos (le_bytes w v ++ rest) w).state pr d pos
            buf w).result = .ok (1, le_bytes w (v % 2 ^ (8 * w)) ++ buf.drop w)) ∧
    le_decode (le_bytes w (v % 2 ^ (8 * w))) = v % 2 ^ (8 * w) := by
  refine ⟨fun h hm s pw pr => darwin1_write_read h hm s pw pr d pos w v hw rest buf,
    fun h hm s pw pr => darwin2_write_read h hm s pw pr d pos w v hw rest buf,
    fun h hm s pw pr => darwin3_write_read h hm s pw pr d pos w v hw rest buf, ?_⟩
  rw [le_decode_le_bytes, width_pow, Nat.mod_mod]

/-- Worked example for C3: after the 2-byte write of 0xCAFEBABE (buffer BE BA) at
offset 0x40 of device 0001:02:03.4 against the storing mock, the 2-byte read of
the same location yields BE BA, that is 0xBABE, in every variant. -/
theorem write_then_read_round_trip_witness :
    (darwin1_read storeHost1
        (darwin1_write storeHost1 (fun _ => none) zeroParam1 dev1 64 [190, 186] 2).state
        zeroParam1 dev1 64 [0, 0, 0, 0] 2).result = .ok (1, [190, 186, 0, 0]) ∧
    (darwin2_read storeHost2
        (darwin2_write storeHost2 (fun _ => none) zeroParam2 dev1 64 [190, 186] 2).state
        zeroParam2 dev1 64 [0, 0, 0, 0] 2).result = .ok (1, [190, 186, 0, 0]) ∧
    (darwin3_read storeHost3
        (darwin3_write storeHost3 (fun _ => none) zeroParam2 dev1 64 [190, 186] 2).state
        zeroParam2 dev1 64 [0, 0, 0, 0] 2).result = .ok (1, [190, 186, 0, 0]) ∧
    le_decode [190, 186] = 3405691582 % 2 ^ 16 := by
  have h := @write_then_read_round_trip (Nat → Option Nat) dev1 64 2 3405691582 (by decide) []
    [0, 0, 0, 0]
  refine ⟨?_, ?_, ?_, by decide⟩
  · exact (h.1 storeHost1 (storeHost_stores _ _ (by decide) _ _ _ (fun _ _ => rfl))
      (fun _ => none) zeroParam1 zeroParam1).2
  · exact (h.2.1 storeHost2 (storeHost_stores _ _ (by decide) _ _ _ (fun _ _ => rfl))
      (fun _ => none) zeroParam2 zeroParam2).2
  · exact (h.2.2.1 storeHost3 (storeHost_stores _ _ (by decide) _ _ _ (fun _ _ => rfl))
      (fun _ => none) zeroParam2 zeroParam2).2

/-! ## Transport failures -/

/-- C4. For the read and the write of each variant and every width in 1, 2, 4:
when the transport returns a status other than `kIOReturnSuccess`, the call
ends in the fatal error hook with the raw status and `mach_error_string` of it
(no value 1 and no buffer is returned), and the transport has been called
exactly once, with the one request the function built. -/
theorem transport_failure_is_reported_once {σ : Type} (d : pci_dev) (pos len : Int)
    (buf : List Nat) (hlen : len = 1 ∨ len = 2 ∨ len = 4) :
    (∀ (h : Host σ AddressSpaceParam) (s : σ) (param0 : AddressSpaceParam),
        (MyIOConnectCallStructMethod h s (darwin1_read_call param0 d pos len)).1 ≠ kIOReturnSuccess →
        (darwin1_read h s param0 d pos buf len).result
          = .error ⟨"darwin read failed: 0x%08x = %s",
              (MyIOConnectCallStructMethod h s (darwin1_read_call param0 d pos len)).1,
              h.mach_error_string (MyIOConnectCallStructMethod h s (darwin1_read_call param0 d pos len)).1⟩ ∧
        (darwin1_read h s param0 d pos buf len).calls = [darwin1_read_call param0 d pos len]) ∧
    (∀ (h : Host σ AddressSpaceParam) (s : σ) (param0 : AddressSpaceParam),
        (MyIOConnectCallStructMethod h s (darwin1_write_call param0 d pos buf len)).1 ≠ kIOReturnSuccess →
        (darwin1_write h s param0 d pos buf len).result
          = .error ⟨"darwin write failed: 0x%08x = %s",
              (MyIOConnectCallStructMethod h s (darwin1_write_call param0 d pos buf len)).1,
              h.mach_error_string (MyIOConnectCallStructMethod h s (darwin1_write_call param0 d pos buf len)).1⟩ ∧
        (darwin1_write h s param0 d pos buf len).calls = [darwin1_write_call param0 d pos buf len]) ∧
    (∀ (h : Host σ IOPCIDiagnosticsParameters) (s : σ) (param0 : IOPCIDiagnosticsParameters),
        (MyIOConnectCallStructMethod h s (darwin2_read_call param0 d pos len)).1 ≠ kIOReturnSuccess →
        (darwin2_read h s param0 d pos buf len).result
          = .error ⟨"darwin2 read failed: 0x%08x = %s",
              (MyIOConnectCallStructMethod h s (darwin2_read_call param0 d pos len)).1,
              h.mach_error_string (MyIOConnectCallStructMethod h s (darwin2_read_call param0 d pos len)).1⟩ ∧
        (darwin2_read h s param0 d pos buf len).calls = [darwin2_read_call param0 d pos len]) ∧
    (∀ (h : Host σ IOPCIDiagnosticsParameters) (s : σ) (param0 : IOPCIDiagnosticsParameters),
        (MyIOConnectCallStructMethod h s (darwin2_write_call param0 d pos buf len)).1 ≠ kIOReturnSuccess →
        (darwin2_write h s param0 d pos buf len).result
          = .error ⟨"darwin2 write failed: 0x%08x = %s",
              (MyIOConnectCallStructMethod h s (darwin2_write_call param0 d pos buf len)).1,
              h.mach_error_string (MyIOConnectCallStructMethod h s (darwin2_write_call param0 d pos buf len)).1⟩ ∧
        (darwin2_write h s param0 d pos buf len).calls = [darwin2_write_call param0 d pos buf len]) ∧
    (∀ (h : Host σ IOPCIDiagnosticsParameters) (s : σ) (param0 : IOPCIDiagnosticsParameters),
        (MyIOConnectCallStructMethod h s (darwin3_read_call param0 d pos len)).1 ≠ kIOReturnSuccess →
        (darwin3_read h s param0 d pos buf len).result
          = .error ⟨"darwin3 read failed: 0x%08x = %s",
              (MyIOConnectCallStructMethod h s (darwin3_read_call param0 d pos len)).1,
              h.mach_error_string (MyIOConnectCallStructMethod h s (darwin3_read_call param0 d pos len)).1⟩ ∧
        (darwin3_read h s param0 d pos buf len).calls = [darwin3_read_call param0 d pos len]) ∧
    (∀ (h : Host σ IOPCIDiagnosticsParameters) (s : σ) (param0 : IOPCIDiagnosticsParameters),
        (MyIOConnectCallStructMethod h s (darwin3_write_call param0 d pos buf len)).1 ≠ kIOReturnSuccess →
        (darwin3_write h s param0 d pos buf len).result
          = .error ⟨"darwin3 write failed: 0x%08x = %s",
              (MyIOConnectCallStructMethod h s (darwin3_write_call param0 d pos buf len)).1,
              h.mach_error_string (MyIOConnectCallStructMethod h s (darwin3_write_call param0 d pos buf len)).1⟩ ∧
        (darwin3_write h s param0 d pos buf len).calls = [darwin3_write_call param0 d pos buf len]) := by
  refine ⟨?_, ?_, ?_, ?_, ?_, ?_⟩
  · intro h s p hs
    simp only [darwin1_read, hlen, not_true_eq_false, if_false, ne_eq, Ne.symm hs,
      not_false_eq_true, if_true, and_self]
  · intro h s p hs
    simp only [darwin1_write, hlen, not_true_eq_false, if_false, ne_eq, Ne.symm hs,
      not_false_eq_true, if_true, and_self]
  · intro h s p hs
    simp only [darwin2_read, hlen, not_true_eq_false, if_false, ne_eq, Ne.symm hs,
      not_false_eq_true, if_true, and_self]
  · intro h s p hs
    simp only [darwin2_write, hlen, not_true_eq_false, if_false, ne_eq, Ne.symm hs,
      not_false_eq_true, if_true, and_self]
  · intro h s p hs
    simp only [darwin3_read, hlen, not_true_eq_false, if_false, ne_eq, Ne.symm hs,
      not_false_eq_true, if_true, and_self]
  · intro h s p hs
    simp only [darwin3_write, hlen, not_true_eq_false, if_false, ne_eq, Ne.symm hs,
      not_false_eq_true, if_true, and_self]

/-- Worked example for C4: a transport answering 0xE00002C1 (not privileged) to a
4-byte access makes every read and write end in the error hook with that
status and its description, after exactly one transport call. -/
theorem transport_failure_is_reported_once_witness :
    ((darwin1_read (replyHost (-536870207) id) () zeroParam1 dev0 0 [0, 0, 0, 0] 4).result
        = .error ⟨"darwin read failed: 0x%08x = %s", -536870207, "failure"⟩ ∧
      ((darwin1_read (replyHost (-536870207) id) () zeroParam1 dev0 0 [0, 0, 0, 0] 4).calls).length
        = 1) ∧
    ((darwin1_write (replyHost (-536870207) id) () zeroParam1 dev0 0 [0, 0, 0, 0] 4).result
        = .error ⟨"darwin write failed: 0x%08x = %s", -536870207, "failure"⟩ ∧
      ((darwin1_write (replyHost (-536870207) id) () zeroParam1 dev0 0 [0, 0, 0, 0] 4).calls).length
        = 1) ∧
    ((darwin2_read (replyHost (-536870207) id) () zeroParam2 dev0 0 [0, 0, 0, 0] 4).result
        = .error ⟨"darwin2 read failed: 0x%08x = %s", -536870207, "failure"⟩ ∧
      ((darwin2_read (replyHost (-536870207) id) () zeroParam2 dev0 0 [0, 0, 0, 0] 4).calls).length
        = 1) ∧
    ((darwin2_write (replyHost (-536870207) id) () zeroParam2 dev0 0 [0, 0, 0, 0] 4).result
        = .error ⟨"darwin2 write failed: 0x%08x = %s", -536870207, "failure"⟩ ∧
      ((darwin2_write (replyHost (-536870207) id) () zeroParam2 dev0 0 [0, 0, 0, 0] 4).calls).length
        = 1) ∧
    ((darwin3_read (replyHost (-536870207) id) () zeroParam2 dev0 0 [0, 0, 0, 0] 4).result
        = .error ⟨"darwin3 read failed: 0x%08x = %s", -536870207, "failure"⟩ ∧
      ((darwin3_read (replyHost (-536870207) id) () zeroParam2 dev0 0 [0, 0, 0, 0] 4).calls).length
        = 1) ∧
    ((darwin3_write (replyHost (-536870207) id) () zeroParam2 dev0 0 [0, 0, 0, 0] 4).result
        = .error ⟨"darwin3 write failed: 0x%08x = %s", -536870207, "failure"⟩ ∧
      ((darwin3_write (replyHost (-536870207) id) () zeroParam2 dev0 0 [0, 0, 0, 0] 4).calls).length
        = 1) := by
  have h := @transport_failure_is_reported_once Unit dev0 0 4 [0, 0, 0, 0] (by decide)
  refine ⟨?_, ?_, ?_, ?_, ?_, ?_⟩
  · have h0 := h.1 (replyHost (-536870207) id) () zeroParam1 (by decide)
    exact ⟨h0.1, congrArg List.length h0.2⟩
  · have h1 := h.2.1 (replyHost (-536870207) id) () zeroParam1 (by decide)
    exact ⟨h1.1, congrArg List.length h1.2⟩
  · have h2 := h.2.2.1 (replyHost (-536870207) id) () zeroParam2 (by decide)
    exact ⟨h2.1, congrArg List.length h2.2⟩
  · have h3 := h.2.2.2.1 (replyHost (-536870207) id) () zeroParam2 (by decide)
    exact ⟨h3.1, congrArg List.length h3.2⟩
  · have h4 := h.2.2.2.2.1 (replyHost (-536870207) id) () zeroParam2 (by decide)
    exact ⟨h4.1, congrArg List.length h4.2⟩
  · have h5 := h.2.2.2.2.2 (replyHost (-536870207) id) () zeroParam2 (by decide)
    exact ⟨h5.1, congrArg List.length h5.2⟩

/-! ## Lengths other than 1, 2 and 4 -/

/-- C5. For the read and the write of each variant: with a length other than 1,
2 and 4 the function passes no request to the transport itself and returns
exactly what the generic block transfer returns for the same device, position,
buffer and (unchanged) length, leaving the outside world as that transfer left
it; and for every length, every request block the function passes to the
transport has `bitWidth` 8, 16 or 32. -/
theorem other_lengths_use_block_transfer {σ : Type} (d : pci_dev) (pos len : Int)
    (buf : List Nat) :
    (∀ (h : Host σ AddressSpaceParam) (s : σ) (param0 : AddressSpaceParam),
        ¬ (len = 1 ∨ len = 2 ∨ len = 4) →
        (darwin1_read h s param0 d pos buf len).calls = [] ∧
        (darwin1_read h s param0 d pos buf len).result
          = (h.pci_generic_block_read s d pos buf len).2 ∧
        (darwin1_read h s param0 d pos buf len).state
          = (h.pci_generic_block_read s d pos buf len).1) ∧
    (∀ (h : Host σ AddressSpaceParam) (s : σ) (param0 : AddressSpaceParam),
        ¬ (len = 1 ∨ len = 2 ∨ len = 4) →
        (darwin1_write h s param0 d pos buf len).calls = [] ∧
        (darwin1_write h s param0 d pos buf len).result
          = (h.pci_generic_block_write s d pos buf len).2 ∧
        (darwin1_write h s param0 d pos buf len).state
          = (h.pci_generic_block_write s d pos buf len).1) ∧
    (∀ (h : Host σ IOPCIDiagnosticsParameters) (s : σ) (param0 : IOPCIDiagnosticsParameters),
        ¬ (len = 1 ∨ len = 2 ∨ len = 4) →
        (darwin2_read h s param0 d pos buf len).calls = [] ∧
        (darwin2_read h s param0 d pos buf len).result
          = (h.pci_generic_block_read s d pos buf len).2 ∧
        (darwin2_read h s param0 d pos buf len).state
          = (h.pci_generic_block_read s d pos buf len).1) ∧
    (∀ (h : Host σ IOPCIDiagnosticsParameters) (s : σ) (param0 : IOPCIDiagnosticsParameters),
        ¬ (len = 1 ∨ len = 2 ∨ len = 4) →
        (darwin2_write h s param0 d pos buf len).calls = [] ∧
        (darwin2_write h s param0 d pos buf len).result
          = (h.pci_generic_block_write s d pos buf len).2 ∧
        (darwin2_write h s param0 d pos buf len).state
          = (h.pci_generic_block_write s d pos buf len).1) ∧
    (∀ (h : Host σ IOPCIDiagnosticsParameters) (s : σ) (param0 : IOPCIDiagnosticsParameters),
        ¬ (len = 1 ∨ len = 2 ∨ len = 4) →
        (darwin3_read h s param0 d pos buf len).calls = [] ∧
        (darwin3_read h s param0 d pos buf len).result
          = (h.pci_generic_block_read s d pos buf len).2 ∧
        (darwin3_read h s param0 d pos buf len).state
          = (h.pci_generic_block_read s d pos buf len).1) ∧
    (∀ (h : Host σ IOPCIDiagnosticsParameters) (s : σ) (param0 : IOPCIDiagnosticsParameters),
        ¬ (len = 1 ∨ len = 2 ∨ len = 4) →
        (darwin3_write h s param0 d pos buf len).calls = [] ∧
        (darwin3_write h s param0 d pos buf len).result
          = (h.pci_generic_block_write s d pos buf len).2 ∧
        (darwin3_write h s param0 d pos buf len).state
          = (h.pci_generic_block_write s d pos buf len).1) ∧
    (∀ (h : Host σ AddressSpaceParam) (s : σ) (param0 : AddressSpaceParam),
        ∀ c ∈ (darwin1_read h s param0 d pos buf len).calls,
          c.input.bitWidth = 8 ∨ c.input.bitWidth = 16 ∨ c.input.bitWidth = 32) ∧
    (∀ (h : Host σ AddressSpaceParam) (s : σ) (param0 : AddressSpaceParam),
        ∀ c ∈ (darwin1_write h s param0 d pos buf len).calls,
          c.input.bitWidth = 8 ∨ c.input.bitWidth = 16 ∨ c.input.bitWidth = 32) ∧
    (∀ (h : Host σ IOPCIDiagnosticsParameters) (s : σ) (param0 : IOPCIDiagnosticsParameters),
        ∀ c ∈ (darwin2_read h s param0 d pos buf len).calls,
          c.input.bitWidth = 8 ∨ c.input.bitWidth = 16 ∨ c.input.bitWidth = 32) ∧
    (∀ (h : Host σ IOPCIDiagnosticsParameters) (s : σ) (param0 : IOPCIDiagnosticsParameters),
        ∀ c ∈ (darwin2_write h s param0 d pos buf len).calls,
          c.input.bitWidth = 8 ∨ c.input.bitWidth = 16 ∨ c.input.bitWidth = 32) ∧
    (∀ (h : Host σ IOPCIDiagnosticsParameters) (s : σ) (param0 : IOPCIDiagnosticsParameters),
        ∀ c ∈ (darwin3_read h s param0 d pos buf len).calls,
          c.input.bitWidth = 8 ∨ c.input.bitWidth = 16 ∨ c.input.bitWidth = 32) ∧
    (∀ (h : Host σ IOPCIDiagnosticsParameters) (s : σ) (param0 : IOPCIDiagnosticsParameters),
        ∀ c ∈ (darwin3_write h s param0 d pos buf len).calls,
          c.input.bitWidth = 8 ∨ c.input.bitWidth = 16 ∨ c.input.bitWidth = 32) := by
  refine ⟨?_, ?_, ?_, ?_, ?_, ?_, ?_, ?_, ?_, ?_, ?_, ?_⟩
  · intro h s p hn
    simp only [darwin1_read, hn, not_false_eq_true, if_true, and_self]
  · intro h s p hn
    simp only [darwin1_write, hn, not_false_eq_true, if_true, and_self]
  · intro h s p hn
    simp only [darwin2_read, hn, not_false_eq_true, if_true, and_self]
  · intro h s p hn
    simp only [darwin2_write, hn, not_false_eq_true, if_true, and_self]
  · intro h s p hn
    simp only [darwin3_read, hn, not_false_eq_true, if_true, and_self]
  · intro h s p hn
    simp only [darwin3_write, hn, not_false_eq_true, if_true, and_self]
  · intro h s p c hc
    by_cases hl : len = 1 ∨ len = 2 ∨ len = 4
    · have hcalls : (darwin1_read h s p d pos buf len).calls
          = [darwin1_read_call p d pos len] := by
        simp only [darwin1_read, hl, not_true_eq_false, if_false, apply_ite, ite_self]
      rw [hcalls, List.mem_singleton] at hc
      subst hc
      rcases hl with rfl | rfl | rfl <;>
        simp [darwin1_read_call, darwin1_read_param, toUInt32]
    · have hcalls : (darwin1_read h s p d pos buf len).calls = [] := by
        simp only [darwin1_read, hl, not_false_eq_true, if_true]
      rw [hcalls] at hc
      exact absurd hc (List.not_mem_nil c)
  · intro h s p c hc
    by_cases hl : len = 1 ∨ len = 2 ∨ len = 4
    · have hcalls : (darwin1_write h s p d pos buf len).calls
          = [darwin1_write_call p d pos buf len] := by
        simp only [darwin1_write, hl, not_true_eq_false, if_false, apply_ite, ite_self]
      rw [hcalls, List.mem_singleton] at hc
      subst hc
      rcases hl with rfl | rfl | rfl <;>
        simp [darwin1_write_call, darwin1_write_param, toUInt32]
    · have hcalls : (darwin1_write h s p d pos buf len).calls = [] := by
        simp only [darwin1_write, hl, not_false_eq_true, if_true]
      rw [hcalls] at hc
      exact absurd hc (List.not_mem_nil c)
  · intro h s p c hc
    by_cases hl : len = 1 ∨ len = 2 ∨ len = 4
    · have hcalls : (darwin2_read h s p d pos buf len).calls
          = [darwin2_read_call p d pos len] := by
        simp only [darwin2_read, hl, not_true_eq_false, if_false, apply_ite, ite_self]
      rw [hcalls, List.mem_singleton] at hc
      subst hc
      rcases hl with rfl | rfl | rfl <;>
        simp [darwin2_read_call, darwin2_read_param, toUInt32]
    · have hcalls : (darwin2_read h s p d pos buf len).calls = [] := by
        simp only [darwin2_read, hl, not_false_eq_true, if_true]
      rw [hcalls] at hc
      exact absurd hc (List.not_mem_nil c)
  · intro h s p c hc
    by_cases hl : len = 1 ∨ len = 2 ∨ len = 4
    · have hcalls : (darwin2_write h s p d pos buf len).calls
          = [darwin2_write_call p d pos buf len] := by
        simp only [darwin2_write, hl, not_true_eq_false, if_false, apply_ite, ite_self]
      rw [hcalls, List.mem_singleton] at hc
      subst hc
      rcases hl with rfl | rfl | rfl <;>
        simp [darwin2_write_call, darwin2_write_param, toUInt32]
    · have hcalls : (darwin2_write h s p d pos buf len).calls = [] := by
        simp only [darwin2_write, hl, not_false_eq_true, if_true]
      rw [hcalls] at hc
      exact absurd hc (List.not_mem_nil c)
  · intro h s p c hc
    by_cases hl : len = 1 ∨ len = 2 ∨ len = 4
    · have hcalls : (darwin3_read h s p d pos buf len).calls
          = [darwin3_read_call p d pos len] := by
        simp only [darwin3_read, hl, not_true_eq_false, if_false, apply_ite, ite_self]
      rw [hcalls, List.mem_singleton] at hc
      subst hc
      rcases hl with rfl | rfl | rfl <;>
        simp [darwin3_read_call, darwin3_read_param, toUInt32]
    · have hcalls : (darwin3_read h s p d pos buf len).calls = [] := by
        simp only [darwin3_read, hl, not_false_eq_true, if_true]
      rw [hcalls] at hc
      exact absurd hc (List.not_mem_nil c)
  · intro h s p c hc
    by_cases hl : len = 1 ∨ len = 2 ∨ len = 4
    · have hcalls : (darwin3_write h s p d pos buf len).calls
          = [darwin3_write_call p d pos buf len] := by
        simp only [darwin3_write, hl, not_true_eq_false, if_false, apply_ite, ite_self]
      rw [hcalls, List.mem_singleton] at hc
      subst hc
      rcases hl with rfl | rfl | rfl <;>
        simp [darwin3_write_call, darwin3_write_param, toUInt32]
    · have hcalls : (darwin3_write h s p d pos buf len).calls = [] := by
        simp only [darwin3_write, hl, not_false_eq_true, if_true]
      rw [hcalls] at hc
      exact absurd hc (List.not_mem_nil c)

/-- Worked example for C5: with length 3 every read and write sends nothing and
returns the block transfer's own result (here 0 and a buffer of FF bytes); and
the request of a 4-byte read has `bitWidth` 32. -/
theorem other_lengths_use_block_transfer_witness :
    ((darwin1_read (blockHost 255) () zeroParam1 dev0 0 [0, 0, 0] 3).calls = [] ∧
      (darwin1_read (blockHost 255) () zeroParam1 dev0 0 [0, 0, 0] 3).result
        = .ok (0, [255, 255, 255])) ∧
    ((darwin1_write (blockHost 255) () zeroParam1 dev0 0 [0, 0, 0] 3).calls = [] ∧
      (darwin1_write (blockHost 255) () zeroParam1 dev0 0 [0, 0, 0] 3).result
        = .ok (0, [255, 255, 255])) ∧
    ((darwin2_read (blockHost 255) () zeroParam2 dev0 0 [0, 0, 0] 3).calls = [] ∧
      (darwin2_read (blockHost 255) () zeroParam2 dev0 0 [0, 0, 0] 3).result
        = .ok (0, [255, 255, 255])) ∧
    ((darwin2_write (blockHost 255) () zeroParam2 dev0 0 [0, 0, 0] 3).calls = [] ∧
      (darwin2_write (blockHost 255) () zeroParam2 dev0 0 [0, 0, 0] 3).result
        = .ok (0, [255, 255, 255])) ∧
    ((darwin3_read (blockHost 255) () zeroParam2 dev0 0 [0, 0, 0] 3).calls = [] ∧
      (darwin3_read (blockHost 255) () zeroParam2 dev0 0 [0, 0, 0] 3).result
        = .ok (0, [255, 255, 255])) ∧
    ((darwin3_write (blockHost 255) () zeroParam2 dev0 0 [0, 0, 0] 3).calls = [] ∧
      (darwin3_write (blockHost 255) () zeroParam2 dev0 0 [0, 0, 0] 3).result
        = .ok (0, [255, 255, 255])) ∧
    (darwin1_read_call zeroParam1 dev0 0 4).input.bitWidth = 32 := by
  have h := @other_lengths_use_block_transfer Unit dev0 0 3 [0, 0, 0]
  have g := (@other_lengths_use_block_transfer Unit dev0 0 4 [0, 0, 0, 0]).2.2.2.2.2.2.1
    (replyHost 0 id) () zeroParam1 (darwin1_read_call zeroParam1 dev0 0 4)
    (List.mem_singleton.mpr rfl)
  refine ⟨?_, ?_, ?_, ?_, ?_, ?_, ?_⟩
  · have h0 := h.1 (blockHost 255) () zeroParam1 (by decide)
    exact ⟨h0.1, h0.2.1⟩
  · have h1 := h.2.1 (blockHost 255) () zeroParam1 (by decide)
    exact ⟨h1.1, h1.2.1⟩
  · have h2 := h.2.2.1 (blockHost 255) () zeroParam2 (by decide)
    exact ⟨h2.1, h2.2.1⟩
  · have h3 := h.2.2.2.1 (blockHost 255) () zeroParam2 (by decide)
    exact ⟨h3.1, h3.2.1⟩
  · have h4 := h.2.2.2.2.1 (blockHost 255) () zeroParam2 (by decide)
    exact ⟨h4.1, h4.2.1⟩
  · have h5 := h.2.2.2.2.2.1 (blockHost 255) () zeroParam2 (by decide)
    exact ⟨h5.1, h5.2.1⟩
  · rcases g with g | g | g
    · exact absurd g (by decide)
    · exact absurd g (by decide)
    · exact g

/-! ## The bus loop -/

theorem busmap_mark_true (busmap : Nat → Bool) (marks : List Nat) (b : Nat) :
    busmap_mark busmap marks b = true ↔ busmap b = true ∨ b ∈ marks := by
  simp [busmap_mark]

/-- Invariant of the loop over bus numbers, after the first `n` iterations. -/
theorem bus_loop_invariant {σ : Type} (probe : BusProbe σ) (dom : Nat) (s : σ) (n : Nat) :
    (∀ p ∈ ((List.range n).foldl (scan_bus_step probe dom)
        { busmap := fun _ => false, world := s, probes := [] }).probes,
        p.domain = dom ∧ p.bus < n) ∧
    (∀ b, ((List.range n).foldl (scan_bus_step probe dom)
        { busmap := fun _ => false, world := s, probes := [] }).busmap b = true ↔
      ∃ p ∈ ((List.range n).foldl (scan_bus_step probe dom)
        { busmap := fun _ => false, world := s, probes := [] }).probes, b ∈ p.marks) ∧
    (∀ b, b < n →
      ((∃ p ∈ ((List.range n).foldl (scan_bus_step probe dom)
          { busmap := fun _ => false, world := s, probes := [] }).probes, p.bus = b) ↔
        ∀ p ∈ ((List.range n).foldl (scan_bus_step probe dom)
          { busmap := fun _ => false, world := s, probes := [] }).probes,
          p.bus < b → b ∉ p.marks)) ∧
    ((List.range n).foldl (scan_bus_step probe dom)
        { busmap := fun _ => false, world := s, probes := [] }).probes.Pairwise
      (fun p q => p.bus < q.bus) := by
  induction n with
  | zero => simp
  | succ n ih =>
    rw [List.range_succ, List.foldl_append]
    generalize (List.range n).foldl (scan_bus_step probe dom)
      { busmap := fun _ => false, world := s, probes := [] } = st at ih ⊢
    obtain ⟨ha, hb, hc, hd⟩ := ih
    simp only [List.foldl_cons, List.foldl_nil]
    by_cases hm : st.busmap n = true
    · have hst : scan_bus_step probe dom st n = st := by
        simp [scan_bus_step, hm]
      rw [hst]
      refine ⟨fun p hp => ⟨(ha p hp).1, Nat.lt_succ_of_lt (ha p hp).2⟩, hb, ?_, hd⟩
      intro b hbn
      rcases Nat.lt_succ_iff_lt_or_eq.mp hbn with hlt | rfl
      · exact hc b hlt
      · constructor
        · rintro ⟨p, hp, hpb⟩
          have := (ha p hp).2
          omega
        · intro hall
          obtain ⟨p, hp, hpm⟩ := (hb b).mp hm
          exact absurd hpm (hall p hp (ha p hp).2)
    · have hst : scan_bus_step probe dom st n =
          { busmap := busmap_mark st.busmap (probe st.world st.busmap dom n).1
            world := (probe st.world st.busmap dom n).2
            probes := st.probes ++
              [{ domain := dom, bus := n, marks := (probe st.world st.busmap dom n).1 }] } := by
        simp [scan_bus_step, hm]
      rw [hst]
      refine ⟨?_, ?_, ?_, ?_⟩
      · intro p hp
        rcases List.mem_append.mp hp with hp | hp
        · exact ⟨(ha p hp).1, Nat.lt_succ_of_lt (ha p hp).2⟩
        · rw [List.mem_singleton] at hp
          subst hp
          exact ⟨rfl, Nat.lt_succ_self _⟩
      · intro b
        simp only [busmap_mark_true, hb b, List.mem_append, List.mem_singleton]
        constructor
        · rintro (⟨p, hp, hpm⟩ | hmem)
          · exact ⟨p, Or.inl hp, hpm⟩
          · exact ⟨_, Or.inr rfl, hmem⟩
        · rintro ⟨p, hp | rfl, hpm⟩
          · exact Or.inl ⟨p, hp, hpm⟩
          · exact Or.inr hpm
      · intro b hbn
        rcases Nat.lt_succ_iff_lt_or_eq.mp hbn with hlt | rfl
        · constructor
          · rintro ⟨p, hp, hpb⟩ q hq hqb
            rcases List.mem_append.mp hp with hp | hp
            · rcases List.mem_append.mp hq with hq | hq
              · exact (hc b hlt).mp ⟨p, hp, hpb⟩ q hq hqb
              · rw [List.mem_singleton] at hq
                subst hq
                simp only at hqb
                omega
            · rw [List.mem_singleton] at hp
              subst hp
              simp only at hpb
              omega
          · intro hall
            obtain ⟨p, hp, hpb⟩ := (hc b hlt).mpr
              (fun q hq hqb => hall q (List.mem_append.mpr (Or.inl hq)) hqb)
            exact ⟨p, List.mem_append.mpr (Or.inl hp), hpb⟩
        · constructor
          · intro _ q hq hqb
            rcases List.mem_append.mp hq with hq | hq
            · intro hqm
              exact hm ((hb b).mpr ⟨q, hq, hqm⟩)
            · rw [List.mem_singleton] at hq
              subst hq
              simp only at hqb
              omega
          · intro _
            exact ⟨_, List.mem_append.mpr (Or.inr (List.mem_singleton.mpr rfl)), rfl⟩
      · rw [List.pairwise_append]
        refine ⟨hd, List.pairwise_singleton _ _, ?_⟩
        intro p hp q hq
        rw [List.mem_singleton] at hq
        subst hq
        exact (ha p hp).2

theorem scan_domain_spec {σ : Type} (probe : BusProbe σ) (s : σ) (dom : Nat) :
    (∀ p ∈ (scan_domain probe s dom).probes, p.domain = dom ∧ p.bus < 256) ∧
    (∀ b, b < 256 →
      ((∃ p ∈ (scan_domain probe s dom).probes, p.bus = b) ↔
        ∀ p ∈ (scan_domain probe s dom).probes, p.bus < b → b ∉ p.marks)) ∧
    (scan_domain probe s dom).probes.Pairwise (fun p q => p.bus < q.bus) := by
  obtain ⟨ha, _, hc, hd⟩ := bus_loop_invariant probe dom s 256
  exact ⟨ha, hc, hd⟩

theorem scan_domains_succ {σ : Type} (probe : BusProbe σ) (k : Nat) (s : σ) :
    scan_domains probe (k + 1) s =
      ((scan_domain probe (scan_domains probe k s).1 k).world,
        (scan_domains probe k s).2 ++ (scan_domain probe (scan_domains probe k s).1 k).probes) := by
  simp only [scan_domains, List.range_succ, List.foldl_append, List.foldl_cons, List.foldl_nil]

/-- Invariant of the loop over domains, after the first `k` domains. -/
theorem scan_domains_invariant {σ : Type} (probe : BusProbe σ) (s : σ) (k : Nat) :
    (∀ p ∈ (scan_domains probe k s).2, p.domain < k ∧ p.bus < 256) ∧
    (∀ d b, d < k → b < 256 →
      ((∃ p ∈ (scan_domains probe k s).2, p.domain = d ∧ p.bus = b) ↔
        ∀ p ∈ (scan_domains probe k s).2, p.domain = d → p.bus < b → b ∉ p.marks)) ∧
    (scan_domains probe k s).2.Pairwise
      (fun p q => p.domain < q.domain ∨ (p.domain = q.domain ∧ p.bus < q.bus)) := by
  induction k with
  | zero => simp [scan_domains]
  | succ k ih =>
    obtain ⟨hA, hB, hC⟩ := ih
    obtain ⟨la, lc, ld⟩ := scan_domain_spec probe (scan_domains probe k s).1 k
    rw [scan_domains_succ]
    generalize (scan_domain probe (scan_domains probe k s).1 k).probes = L at la lc ld
    generalize (scan_domains probe k s).2 = T at hA hB hC
    simp only
    refine ⟨?_, ?_, ?_⟩
    · intro p hp
      rcases List.mem_append.mp hp with hp | hp
      · exact ⟨Nat.lt_succ_of_lt (hA p hp).1, (hA p hp).2⟩
      · exact ⟨by rw [(la p hp).1]; exact Nat.lt_succ_self k, (la p hp).2⟩
    · intro d b hd hb
      rcases Nat.lt_succ_iff_lt_or_eq.mp hd with hlt | rfl
      · constructor
        · rintro ⟨p, hp, hpd, hpb⟩ q hq hqd hqb
          rcases List.mem_append.mp hp with hp | hp
          · rcases List.mem_append.mp hq with hq | hq
            · exact (hB d b hlt hb).mp ⟨p, hp, hpd, hpb⟩ q hq hqd hqb
            · have := (la q hq).1
              omega
          · have := (la p hp).1
            omega
        · intro hall
          obtain ⟨p, hp, hpd, hpb⟩ := (hB d b hlt hb).mpr
            (fun q hq hqd hqb => hall q (List.mem_append.mpr (Or.inl hq)) hqd hqb)
          exact ⟨p, List.mem_append.mpr (Or.inl hp), hpd, hpb⟩
      · constructor
        · rintro ⟨p, hp, hpd, hpb⟩ q hq hqd hqb
          rcases List.mem_append.mp hp with hp | hp
          · have := (hA p hp).1
            omega
          · rcases List.mem_append.mp hq with hq | hq
            · have := (hA q hq).1
              omega
            · exact (lc b hb).mp ⟨p, hp, hpb⟩ q hq hqb
        · intro hall
          obtain ⟨p, hp, hpb⟩ := (lc b hb).mpr
            (fun q hq hqb => hall q (List.mem_append.mpr (Or.inr hq)) (la q hq).1 hqb)
          exact ⟨p, List.mem_append.mpr (Or.inr hp), (la p hp).1, hpb⟩
    · rw [List.pairwise_append]
      refine ⟨hC, ?_, ?_⟩
      · refine List.Pairwise.imp_of_mem ?_ ld
        intro p q hp hq hpq
        exact Or.inr ⟨by rw [(la p hp).1, (la q hq).1], hpq⟩
      · intro p hp q hq
        exact Or.inl (by rw [(la q hq).1]; exact (hA p hp).1)

/-- Every recorded probe carries the marks the collaborator reported for it. -/
theorem bus_loop_marks {σ : Type} (probe : BusProbe σ) (dom : Nat) (s : σ) (n : Nat) :
    ∀ p ∈ ((List.range n).foldl (scan_bus_step probe dom)
        { busmap := fun _ => false, world := s, probes := [] }).probes,
      ∃ w m, p.marks = (probe w m p.domain p.bus).1 := by
  induction n with
  | zero => simp
  | succ n ih =>
    rw [List.range_succ, List.foldl_append]
    generalize (List.range n).foldl (scan_bus_step probe dom)
      { busmap := fun _ => false, world := s, probes := [] } = st at ih ⊢
    simp only [List.foldl_cons, List.foldl_nil]
    intro p hp
    by_cases hm : st.busmap n = true
    · have hst : scan_bus_step probe dom st n = st := by
        simp [scan_bus_step, hm]
      rw [hst] at hp
      exact ih p hp
    · have hst : (scan_bus_step probe dom st n).probes = st.probes ++
          [{ domain := dom, bus := n, marks := (probe st.world st.busmap dom n).1 }] := by
        simp [scan_bus_step, hm]
      rw [hst] at hp
      rcases List.mem_append.mp hp with hp | hp
      · exact ih p hp
      · rw [List.mem_singleton] at hp
        subst hp
        exact ⟨st.world, st.busmap, rfl⟩

set_option maxRecDepth 20000 in
theorem filter_ne_five_length : ((List.range 256).filter (fun b => b != 5)).length = 255 := by
  decide

/-- The scenario of one two-bus bridge on bus 0, for one domain: the probed
buses are 0..255 without 5, in this order. -/
theorem scan_domain_one_bridge {σ : Type} (probe : BusProbe σ)
    (h0 : ∀ w m d, (probe w m d 0).1 = [0, 5])
    (h1 : ∀ w m d b, b ≠ 0 → (probe w m d b).1 = [b]) (s : σ) (dom : Nat) :
    (scan_domain probe s dom).probes.map (fun p => p.bus)
      = (List.range 256).filter (fun b => b != 5) := by
  obtain ⟨la, lc, ld⟩ := scan_domain_spec probe s dom
  have lm := bus_loop_marks probe dom s 256
  change ∀ p ∈ (scan_domain probe s dom).probes, _ at lm
  generalize (scan_domain probe s dom).probes = L at la lc ld lm
  have hmarks : ∀ p ∈ L, p.marks = if p.bus = 0 then [0, 5] else [p.bus] := by
    intro p hp
    obtain ⟨w, m, hw⟩ := lm p hp
    by_cases hz : p.bus = 0
    · rw [hw, hz, h0]
      simp
    · rw [hw, h1 w m _ _ hz]
      simp [hz]
  have hzero : ∃ p ∈ L, p.bus = 0 := (lc 0 (by decide)).mpr (fun p _ hlt => absurd hlt (by omega))
  have hmem : ∀ b, b ∈ L.map (fun p => p.bus) ↔ b ∈ (List.range 256).filter (fun b => b != 5) := by
    intro b
    simp only [List.mem_map, List.mem_filter, List.mem_range, bne_iff_ne, ne_eq]
    constructor
    · rintro ⟨p, hp, rfl⟩
      refine ⟨(la p hp).2, ?_⟩
      intro h5
      obtain ⟨q, hq, hq0⟩ := hzero
      have := (lc 5 (by decide)).mp ⟨p, hp, h5⟩ q hq (by omega)
      rw [hmarks q hq, hq0] at this
      simp at this
    · rintro ⟨hb, h5⟩
      obtain ⟨p, hp, hpb⟩ := (lc b hb).mpr (by
        intro q hq hqb
        rw [hmarks q hq]
        by_cases hz : q.bus = 0
        · simp only [hz, if_true, List.mem_cons, List.mem_singleton, List.not_mem_nil, or_false]
          omega
        · simp only [hz, if_false, List.mem_singleton]
          omega)
      exact ⟨p, hp, hpb⟩
  have hs1 : (L.map (fun p => p.bus)).Sorted (· < ·) := by
    rw [List.Sorted, List.pairwise_map]
    exact ld
  have hs2 : ((List.range 256).filter (fun b => b != 5)).Sorted (· < ·) :=
    (List.sorted_lt_range 256).filter _
  exact List.eq_of_perm_of_sorted
    ((List.perm_ext_iff_of_nodup hs1.nodup hs2.nodup).mpr hmem) hs1 hs2

/-- The probes of one domain within a whole scan are the probes of one run of the
bus loop, started on a fresh bus map. -/
theorem scan_domains_filter {σ : Type} (probe : BusProbe σ) (s : σ) (k d : Nat) (hd : d < k) :
    ∃ w, (scan_domains probe k s).2.filter (fun p => p.domain = d)
      = (scan_domain probe w d).probes := by
  induction k with
  | zero => omega
  | succ k ih =>
    obtain ⟨hA, _, _⟩ := scan_domains_invariant probe s k
    obtain ⟨la, _, _⟩ := scan_domain_spec probe (scan_domains probe k s).1 k
    rw [scan_domains_succ]
    simp only [List.filter_append]
    rcases Nat.lt_succ_iff_lt_or_eq.mp hd with hlt | rfl
    · obtain ⟨w, hw⟩ := ih hlt
      refine ⟨w, ?_⟩
      have hnil : (scan_domain probe (scan_domains probe k s).1 k).probes.filter
          (fun p => p.domain = d) = [] := by
        rw [List.filter_eq_nil_iff]
        intro p hp
        have := (la p hp).1
        simp only [decide_eq_true_eq]
        omega
      rw [hnil, List.append_nil, hw]
    · refine ⟨(scan_domains probe d s).1, ?_⟩
      have hnil : (scan_domains probe d s).2.filter (fun p => p.domain = d) = [] := by
        rw [List.filter_eq_nil_iff]
        intro p hp
        have := (hA p hp).1
        simp only [decide_eq_true_eq]
        omega
      have hall : (scan_domain probe (scan_domains probe d s).1 d).probes.filter
          (fun p => p.domain = d) = (scan_domain probe (scan_domains probe d s).1 d).probes := by
        rw [List.filter_eq_self]
        intro p hp
        simp only [decide_eq_true_eq]
        exact (la p hp).1
      rw [hnil, List.nil_append, hall]

theorem scan_domains_one {σ : Type} (probe : BusProbe σ) (s : σ) :
    (scan_domains probe 1 s).2 = (scan_domain probe s 0).probes := by
  have h := scan_domains_succ probe 0 s
  rw [h]
  simp [scan_domains]

/-- C6. For the scan of each variant and every behaviour of the per-bus probe:
the probe is invoked on (domain `d`, bus `b`), for `d` below the domain count and
`b` below 256, if and only if no probe invoked on a lower bus of domain `d` has
marked `b` (each domain starting from an all-unset bus map).  When the probe of
bus 0 marks buses 0 and 5 and every other probe marks only its own bus, the
buses probed in a domain are 0..255 without 5, in this order: bus 5 is never
probed and the domain sees exactly 255 probe invocations. -/
theorem probe_iff_not_marked_earlier {σ : Type} (probe : BusProbe σ) (s : σ) :
    (∀ b, b < 256 →
      ((∃ p ∈ (darwin1_scan probe s).2, p.domain = 0 ∧ p.bus = b) ↔
        ∀ p ∈ (darwin1_scan probe s).2, p.domain = 0 → p.bus < b → b ∉ p.marks)) ∧
    (∀ b, b < 256 →
      ((∃ p ∈ (darwin2_scan probe s).2, p.domain = 0 ∧ p.bus = b) ↔
        ∀ p ∈ (darwin2_scan probe s).2, p.domain = 0 → p.bus < b → b ∉ p.marks)) ∧
    (∀ (root : Option Node) (st : BridgeCount) (d b : Nat),
      (d : Int) < (darwin3_scan probe root st s).1.pciHostBridgeCount → b < 256 →
      ((∃ p ∈ (darwin3_scan probe root st s).2.2, p.domain = d ∧ p.bus = b) ↔
        ∀ p ∈ (darwin3_scan probe root st s).2.2, p.domain = d → p.bus < b → b ∉ p.marks)) ∧
    ((∀ w m d, (probe w m d 0).1 = [0, 5]) → (∀ w m d b, b ≠ 0 → (probe w m d b).1 = [b]) →
      ((darwin1_scan probe s).2.map (fun p => (p.domain, p.bus))
          = ((List.range 256).filter (fun b => b != 5)).map (fun b => (0, b)) ∧
        (darwin1_scan probe s).2.length = 255) ∧
      ((darwin2_scan probe s).2.map (fun p => (p.domain, p.bus))
          = ((List.range 256).filter (fun b => b != 5)).map (fun b => (0, b)) ∧
        (darwin2_scan probe s).2.length = 255) ∧
      (∀ (root : Option Node) (st : BridgeCount) (d : Nat),
        (d : Int) < (darwin3_scan probe root st s).1.pciHostBridgeCount →
        (((darwin3_scan probe root st s).2.2.filter (fun p => p.domain = d)).map (fun p => p.bus)
            = (List.range 256).filter (fun b => b != 5) ∧
          ((darwin3_scan probe root st s).2.2.filter (fun p => p.domain = d)).length = 255))) := by
  have one : ∀ b, b < 256 →
      ((∃ p ∈ (scan_domains probe 1 s).2, p.domain = 0 ∧ p.bus = b) ↔
        ∀ p ∈ (scan_domains probe 1 s).2, p.domain = 0 → p.bus < b → b ∉ p.marks) :=
    fun b hb => (scan_domains_invariant probe s 1).2.1 0 b (by decide) hb
  have scen1 : (∀ w m d, (probe w m d 0).1 = [0, 5]) →
      (∀ w m d b, b ≠ 0 → (probe w m d b).1 = [b]) →
      ((scan_domains probe 1 s).2.map (fun p => (p.domain, p.bus))
          = ((List.range 256).filter (fun b => b != 5)).map (fun b => (0, b)) ∧
        (scan_domains probe 1 s).2.length = 255) := by
    intro h0 h1
    have hb := scan_domain_one_bridge probe h0 h1 s 0
    have hdom := (scan_domain_spec probe s 0).1
    rw [scan_domains_one]
    constructor
    · rw [← hb, List.map_map]
      apply List.map_congr_left
      intro p hp
      simp [(hdom p hp).1]
    · have := congrArg List.length hb
      rw [List.length_map, filter_ne_five_length] at this
      exact this
  refine ⟨one, one, ?_, ?_⟩
  · intro root st d b hd hb
    exact (scan_domains_invariant probe s _).2.1 d b (by
      simp only [darwin3_scan] at hd
      omega) hb
  · intro h0 h1
    refine ⟨scen1 h0 h1, scen1 h0 h1, ?_⟩
    intro root st d hd
    obtain ⟨w, hw⟩ := scan_domains_filter probe s
      (CountPciHostBridges root st).pciHostBridgeCount.toNat d (by
        simp only [darwin3_scan] at hd
        omega)
    have hb := scan_domain_one_bridge probe h0 h1 w d
    simp only [darwin3_scan]
    rw [hw]
    refine ⟨hb, ?_⟩
    have := congrArg List.length hb
    rw [List.length_map, filter_ne_five_length] at this
    exact this

theorem twoBridges_count :
    CountPciHostBridges (some twoBridges) BridgeCount.initial
      = { pciHostBridgeCount := 2, conformsTo := [0, 1, 2, 4, 5], rootEntries := 1 } := by
  simp [CountPciHostBridges, CountPciHostBridges1, twoBridges, BridgeCount.initial]

/-- Worked example for C6: with the one-bridge probe, the single-domain scans
invoke the probe 255 times and never on bus 5, and the second of the two domains
of the DirectHW scan likewise sees 255 probes; on bus 5 the equivalence has both
sides false. -/
theorem probe_iff_not_marked_earlier_witness :
    (darwin1_scan bridgeProbe ()).2.length = 255 ∧
    (darwin2_scan bridgeProbe ()).2.length = 255 ∧
    ((0, 5) ∉ (darwin1_scan bridgeProbe ()).2.map (fun p => (p.domain, p.bus))) ∧
    ((darwin3_scan bridgeProbe (some twoBridges) BridgeCount.initial ()).2.2.filter
      (fun p => p.domain = 1)).length = 255 ∧
    ((∃ p ∈ (darwin1_scan bridgeProbe ()).2, p.domain = 0 ∧ p.bus = 5) ↔
      ∀ p ∈ (darwin1_scan bridgeProbe ()).2, p.domain = 0 → p.bus < 5 → 5 ∉ p.marks) := by
  have h := @probe_iff_not_marked_earlier Unit bridgeProbe ()
  have h0 : ∀ (w : Unit) (m : Nat → Bool) (d : Nat), (bridgeProbe w m d 0).1 = [0, 5] :=
    fun _ _ _ => rfl
  have h1 : ∀ (w : Unit) (m : Nat → Bool) (d b : Nat), b ≠ 0 → (bridgeProbe w m d b).1 = [b] := by
    intro w m d b hb
    simp [bridgeProbe, hb]
  have hs := h.2.2.2 h0 h1
  have hc : ((1 : Nat) : Int)
      < (darwin3_scan bridgeProbe (some twoBridges) BridgeCount.initial ()).1.pciHostBridgeCount := by
    simp only [darwin3_scan, twoBridges_count]
    decide
  refine ⟨hs.1.2, hs.2.1.2, ?_, (hs.2.2 (some twoBridges) BridgeCount.initial 1 hc).2,
    h.1 5 (by decide)⟩
  rw [hs.1.1]
  simp

/-! ## Order of the probes -/

theorem scan_domains_first_bus {σ : Type} (probe : BusProbe σ) (s : σ) (k d : Nat) (hd : d < k) :
    ∃ p ∈ (scan_domains probe k s).2, p.domain = d ∧ p.bus = 0 :=
  ((scan_domains_invariant probe s k).2.1 d 0 hd (by decide)).mpr
    (fun p _ _ hlt => absurd hlt (Nat.not_lt_zero _))

/-- C7. For the scan of each variant, the (domain, bus) pairs on which the per-bus
probe is invoked form a strictly increasing sequence in lexicographic order,
every bus is below 256 and every domain below the domain count, and bus 0 of
every domain below the count is probed.  The count is 1 for `darwin1_scan` and
`darwin2_scan`; for `darwin3_scan` it is `pciHostBridgeCount` as
`CountPciHostBridges` leaves it (the stored value when it is already
non-negative), and a count of 0 yields no probe at all. -/
theorem probes_strictly_increasing {σ : Type} (probe : BusProbe σ) (s : σ) :
    ((darwin1_scan probe s).2.Pairwise
        (fun p q => p.domain < q.domain ∨ (p.domain = q.domain ∧ p.bus < q.bus)) ∧
      (∀ p ∈ (darwin1_scan probe s).2, p.domain < 1 ∧ p.bus < 256) ∧
      (∃ p ∈ (darwin1_scan probe s).2, p.domain = 0 ∧ p.bus = 0)) ∧
    ((darwin2_scan probe s).2.Pairwise
        (fun p q => p.domain < q.domain ∨ (p.domain = q.domain ∧ p.bus < q.bus)) ∧
      (∀ p ∈ (darwin2_scan probe s).2, p.domain < 1 ∧ p.bus < 256) ∧
      (∃ p ∈ (darwin2_scan probe s).2, p.domain = 0 ∧ p.bus = 0)) ∧
    (∀ (root : Option Node) (st : BridgeCount),
      (darwin3_scan probe root st s).1 = CountPciHostBridges root st ∧
      (0 ≤ st.pciHostBridgeCount → (darwin3_scan probe root st s).1 = st) ∧
      (darwin3_scan probe root st s).2.2.Pairwise
        (fun p q => p.domain < q.domain ∨ (p.domain = q.domain ∧ p.bus < q.bus)) ∧
      (∀ p ∈ (darwin3_scan probe root st s).2.2,
        (p.domain : Int) < (darwin3_scan probe root st s).1.pciHostBridgeCount ∧ p.bus < 256) ∧
      (∀ d : Nat, (d : Int) < (darwin3_scan probe root st s).1.pciHostBridgeCount →
        ∃ p ∈ (darwin3_scan probe root st s).2.2, p.domain = d ∧ p.bus = 0) ∧
      ((darwin3_scan probe root st s).1.pciHostBridgeCount = 0 →
        (darwin3_scan probe root st s).2.2 = [])) := by
  have one : (scan_domains probe 1 s).2.Pairwise
        (fun p q => p.domain < q.domain ∨ (p.domain = q.domain ∧ p.bus < q.bus)) ∧
      (∀ p ∈ (scan_domains probe 1 s).2, p.domain < 1 ∧ p.bus < 256) ∧
      (∃ p ∈ (scan_domains probe 1 s).2, p.domain = 0 ∧ p.bus = 0) :=
    ⟨(scan_domains_invariant probe s 1).2.2, (scan_domains_invariant probe s 1).1,
      scan_domains_first_bus probe s 1 0 (by decide)⟩
  refine ⟨one, one, ?_⟩
  intro root st
  refine ⟨rfl, ?_, (scan_domains_invariant probe s _).2.2, ?_, ?_, ?_⟩
  · intro h
    simp only [darwin3_scan, CountPciHostBridges, not_lt.mpr h, if_false]
  · intro p hp
    have := (scan_domains_invariant probe s _).1 p hp
    simp only [darwin3_scan]
    omega
  · intro d hd
    exact scan_domains_first_bus probe s _ d (by
      simp only [darwin3_scan] at hd
      omega)
  · intro h0
    simp only [darwin3_scan] at h0 ⊢
    rw [h0]
    rfl

/-- Worked example for C7: with the registry of two host bridges the DirectHW scan
started from the initial state probes in increasing order, only domains 0 and 1,
and does probe bus 0 of domain 1; once the stored count is 0 it probes nothing. -/
theorem probes_strictly_increasing_witness :
    (darwin3_scan bridgeProbe (some twoBridges) BridgeCount.initial ()).2.2.Pairwise
        (fun p q => p.domain < q.domain ∨ (p.domain = q.domain ∧ p.bus < q.bus)) ∧
    (∀ p ∈ (darwin3_scan bridgeProbe (some twoBridges) BridgeCount.initial ()).2.2,
      (p.domain : Int) < 2 ∧ p.bus < 256) ∧
    (∃ p ∈ (darwin3_scan bridgeProbe (some twoBridges) BridgeCount.initial ()).2.2,
      p.domain = 1 ∧ p.bus = 0) ∧
    (darwin3_scan bridgeProbe (some twoBridges)
      { pciHostBridgeCount := 0, conformsTo := [], rootEntries := 1 } ()).2.2 = [] := by
  have h := (@probes_strictly_increasing Unit bridgeProbe ()).2.2 (some twoBridges)
    BridgeCount.initial
  have hz := (@probes_strictly_increasing Unit bridgeProbe ()).2.2 (some twoBridges)
    { pciHostBridgeCount := 0, conformsTo := [], rootEntries := 1 }
  have hc : (darwin3_scan bridgeProbe (some twoBridges) BridgeCount.initial ()).1.pciHostBridgeCount
      = 2 := by
    rw [h.1, twoBridges_count]
  refine ⟨h.2.2.1, ?_, h.2.2.2.2.1 1 (by rw [hc]; decide), hz.2.2.2.2.2 ?_⟩
  · intro p hp
    have := h.2.2.2.1 p hp
    rw [hc] at this
    exact this
  · rw [hz.2.1 (by decide)]

/-! ## Counting host bridges -/

theorem pending_head_tail (l : List Node) : pending l.head? l.tail = l := by
  cases l <;> rfl

mutual
theorem entries_under : ∀ (n : Node), ∀ e ∈ Node.entries true n, e.underBridge = true
  | .mk id b ch => by
    intro e he
    simp only [Node.entries, Bool.true_or, List.mem_cons] at he
    rcases he with rfl | he
    · rfl
    · exact entriesList_under ch e he
theorem entriesList_under : ∀ (l : List Node), ∀ e ∈ Node.entriesList true l, e.underBridge = true
  | [] => by
    intro e he
    simp [Node.entriesList] at he
  | n :: rest => by
    intro e he
    simp only [Node.entriesList, List.mem_append] at he
    rcases he with he | he
    · exact entries_under n e he
    · exact entriesList_under rest e he
end

theorem sizeOf_head_tail (l : List Node) : sizeOf l.head? + sizeOf l.tail ≤ sizeOf l + 1 := by
  cases l <;> simp

theorem filter_under_nil (l : List Node) (q : Entry → Bool) :
    (Node.entriesList true l).filter (fun e => q e && !e.underBridge) = [] := by
  rw [List.filter_eq_nil_iff]
  intro e he
  simp [entriesList_under l e he]

theorem filter_under_nil' (l : List Node) :
    (Node.entriesList true l).filter (fun e => !e.underBridge) = [] := by
  rw [List.filter_eq_nil_iff]
  intro e he
  simp [entriesList_under l e he]

/-- What a walk adds to the state: one count per pending node that conforms to
`IOPCIBridge` with no conforming proper ancestor, one `IOObjectConformsTo` call
per pending node with no conforming proper ancestor, and no root lookup. -/
theorem walk_spec_bounded (n : Nat) :
    ∀ (service : Option Node) (services : List Node) (st : BridgeCount),
      sizeOf service + sizeOf services ≤ n →
      CountPciHostBridges1 service services st =
        { pciHostBridgeCount := st.pciHostBridgeCount +
            (((Node.entriesList false (pending service services)).filter
              (fun e => e.bridge && !e.underBridge)).length : Nat)
          conformsTo := st.conformsTo ++
            ((Node.entriesList false (pending service services)).filter
              (fun e => !e.underBridge)).map (fun e => e.id)
          rootEntries := st.rootEntries } := by
  induction n with
  | zero =>
    intro service services st h
    cases service <;> simp at h
  | succ n ih =>
    intro service services st h
    cases service with
    | none => simp [CountPciHostBridges1, pending, Node.entriesList]
    | some nd =>
      obtain ⟨id, b, ch⟩ := nd
      have hs1 := sizeOf_head_tail ch
      have hs2 := sizeOf_head_tail services
      simp only [Option.some.sizeOf_spec, Node.mk.sizeOf_spec] at h
      rw [CountPciHostBridges1]
      simp only
      rw [ih services.head? services.tail _ (by omega), pending_head_tail]
      cases b with
      | true =>
        simp [pending, Node.entriesList, Node.entries, List.filter_cons, filter_under_nil',
          filter_under_nil ch (fun e => e.bridge)]
        omega
      | false =>
        rw [if_neg (by decide), ih ch.head? ch.tail _ (by omega), pending_head_tail]
        simp [pending, Node.entriesList, Node.entries, List.filter_cons]
        omega

theorem walk_spec (service : Option Node) (services : List Node) (st : BridgeCount) :
    CountPciHostBridges1 service services st =
      { pciHostBridgeCount := st.pciHostBridgeCount +
          (((Node.entriesList false (pending service services)).filter
            (fun e => e.bridge && !e.underBridge)).length : Nat)
        conformsTo := st.conformsTo ++
          ((Node.entriesList false (pending service services)).filter
            (fun e => !e.underBridge)).map (fun e => e.id)
        rootEntries := st.rootEntries } :=
  walk_spec_bounded _ service services st (le_refl _)

theorem first_count (root : Option Node) :
    CountPciHostBridges root BridgeCount.initial =
      { pciHostBridgeCount :=
          (((Node.entriesList false (pending root [])).filter
            (fun e => e.bridge && !e.underBridge)).length : Nat)
        conformsTo := ((Node.entriesList false (pending root [])).filter
            (fun e => !e.underBridge)).map (fun e => e.id)
        rootEntries := 1 } := by
  rw [CountPciHostBridges, if_pos (by decide), walk_spec]
  simp [BridgeCount.initial]

/-- C8. For every finite tree `root`, the first `CountPciHostBridges` (from the
initial state, the walk being a total function) looks the root up once and
leaves in `pciHostBridgeCount` the number of nodes that conform to `IOPCIBridge`
and have no proper ancestor that does; the nodes it examines are exactly those
with no conforming proper ancestor, in preorder.  Locally: a conforming node
adds one to the count and the walk goes on with its siblings without touching
its children; a non-conforming node adds nothing and the walk runs over all its
children before going on with the siblings. -/
theorem first_count_is_top_level_bridges (root : Node) :
    (CountPciHostBridges (some root) BridgeCount.initial).pciHostBridgeCount
      = (root.hostBridges : Int) ∧
    (CountPciHostBridges (some root) BridgeCount.initial).conformsTo = root.reachable ∧
    (CountPciHostBridges (some root) BridgeCount.initial).rootEntries = 1 ∧
    (∀ (id : Nat) (children services : List Node) (st : BridgeCount),
      CountPciHostBridges1 (some (.mk id true children)) services st
        = CountPciHostBridges1 services.head? services.tail
            { st with conformsTo := st.conformsTo ++ [id]
                      pciHostBridgeCount := st.pciHostBridgeCount + 1 }) ∧
    (∀ (id : Nat) (children services : List Node) (st : BridgeCount),
      CountPciHostBridges1 (some (.mk id false children)) services st
        = CountPciHostBridges1 services.head? services.tail
            (CountPciHostBridges1 children.head? children.tail
              { st with conformsTo := st.conformsTo ++ [id] })) := by
  refine ⟨?_, ?_, ?_, ?_, ?_⟩
  · rw [first_count]
    simp [Node.hostBridges, pending, Node.entriesList]
  · rw [first_count]
    simp [Node.reachable, pending, Node.entriesList]
  · rw [first_count]
  · intro id children services st
    rw [CountPciHostBridges1]
    simp
  · intro id children services st
    rw [CountPciHostBridges1]
    simp

/-! ## The count is computed once -/

theorem count_nonneg_after (root : Option Node) :
    0 ≤ (CountPciHostBridges root BridgeCount.initial).pciHostBridgeCount := by
  rw [first_count]
  exact Int.natCast_nonneg _

theorem count_idle (root : Option Node) (st : BridgeCount) (h : 0 ≤ st.pciHostBridgeCount) :
    CountPciHostBridges root st = st := by
  simp only [CountPciHostBridges, not_lt.mpr h, if_false]

theorem count_fold_idle (later : List (Option Node)) (st : BridgeCount)
    (h : 0 ≤ st.pciHostBridgeCount) :
    later.foldl (fun st r => CountPciHostBridges r st) st = st := by
  induction later with
  | nil => rfl
  | cons r rest ih => rw [List.foldl_cons, count_idle r st h, ih]

theorem scans_fold_idle {σ : Type} (probe : BusProbe σ) (later : List (Option Node))
    (st : BridgeCount) (h : 0 ≤ st.pciHostBridgeCount) (s : σ) (logs : List (List Probe)) :
    (later.foldl
      (fun acc root =>
        ((darwin3_scan probe root acc.1 acc.2.1).1, (darwin3_scan probe root acc.1 acc.2.1).2.1,
          acc.2.2 ++ [(darwin3_scan probe root acc.1 acc.2.1).2.2]))
      (st, s, logs)).1 = st ∧
    ∀ log ∈ (later.foldl
      (fun acc root =>
        ((darwin3_scan probe root acc.1 acc.2.1).1, (darwin3_scan probe root acc.1 acc.2.1).2.1,
          acc.2.2 ++ [(darwin3_scan probe root acc.1 acc.2.1).2.2]))
      (st, s, logs)).2.2,
      log ∈ logs ∨ ∀ d : Nat, (∃ p ∈ log, p.domain = d) ↔ (d : Int) < st.pciHostBridgeCount := by
  induction later generalizing s logs with
  | nil => exact ⟨rfl, fun log hl => Or.inl hl⟩
  | cons r rest ih =>
    rw [List.foldl_cons]
    have h1 : (darwin3_scan probe r st s).1 = st := count_idle r st h
    simp only [h1]
    obtain ⟨e1, e2⟩ := ih (darwin3_scan probe r st s).2.1 (logs ++ [(darwin3_scan probe r st s).2.2])
    refine ⟨e1, ?_⟩
    intro log hl
    rcases e2 log hl with hm | hd
    · rcases List.mem_append.mp hm with hm | hm
      · exact Or.inl hm
      · rw [List.mem_singleton] at hm
        subst hm
        right
        intro d
        have hT : (darwin3_scan probe r st s).2.2
            = (scan_domains probe st.pciHostBridgeCount.toNat s).2 := by
          simp only [darwin3_scan, count_idle r st h]
        rw [hT]
        constructor
        · rintro ⟨p, hp, rfl⟩
          have := ((scan_domains_invariant probe s _).1 p hp).1
          omega
        · intro hd
          obtain ⟨p, hp, hpd, _⟩ := scan_domains_first_bus probe s
            st.pciHostBridgeCount.toNat d (by omega)
          exact ⟨p, hp, hpd⟩
    · exact Or.inr hd

theorem scans_fold_length {σ : Type} (probe : BusProbe σ) (later : List (Option Node))
    (st : BridgeCount) (s : σ) (logs : List (List Probe)) :
    (later.foldl
      (fun acc root =>
        ((darwin3_scan probe root acc.1 acc.2.1).1, (darwin3_scan probe root acc.1 acc.2.1).2.1,
          acc.2.2 ++ [(darwin3_scan probe root acc.1 acc.2.1).2.2]))
      (st, s, logs)).2.2.length = logs.length + later.length := by
  induction later generalizing st s logs with
  | nil => rfl
  | cons r rest ih =>
    rw [List.foldl_cons, ih]
    simp only [List.length_append, List.length_cons, List.length_nil]
    omega

theorem first_scan_as_later {σ : Type} (probe : BusProbe σ) (root : Option Node) (s : σ) :
    darwin3_scan probe root BridgeCount.initial s
      = darwin3_scan probe root (CountPciHostBridges root BridgeCount.initial) s := by
  simp only [darwin3_scan, count_idle root _ (count_nonneg_after root)]

/-- C9. `pciHostBridgeCount` is memoized.  The first `CountPciHostBridges` looks
the registry root up once; whatever registries the later calls would see, they
leave the whole count state (count, walk record, number of root lookups) as the
first call left it, also when the first count was 0.  The same holds for
`darwin3_scan`: after any run of scans, of which the first sees `root`, the count
state is that of the first count on `root`, so the registry was walked exactly
once, and every scan of the run probed exactly the domains below that count. -/
theorem host_bridge_count_is_memoized {σ : Type} (probe : BusProbe σ) (root : Option Node) :
    (CountPciHostBridges root BridgeCount.initial).rootEntries = 1 ∧
    0 ≤ (CountPciHostBridges root BridgeCount.initial).pciHostBridgeCount ∧
    (∀ later : List (Option Node),
      later.foldl (fun st r => CountPciHostBridges r st)
          (CountPciHostBridges root BridgeCount.initial)
        = CountPciHostBridges root BridgeCount.initial) ∧
    (∀ (later : List (Option Node)) (s : σ),
      (darwin3_scans probe (root :: later) BridgeCount.initial s).1
        = CountPciHostBridges root BridgeCount.initial ∧
      (darwin3_scans probe (root :: later) BridgeCount.initial s).2.2.length = later.length + 1 ∧
      ∀ log ∈ (darwin3_scans probe (root :: later) BridgeCount.initial s).2.2, ∀ d : Nat,
        (∃ p ∈ log, p.domain = d) ↔
          (d : Int) < (CountPciHostBridges root BridgeCount.initial).pciHostBridgeCount) := by
  refine ⟨by rw [first_count], count_nonneg_after root,
    fun later => count_fold_idle later _ (count_nonneg_after root), ?_⟩
  intro later s
  have hrw : darwin3_scans probe (root :: later) BridgeCount.initial s
      = (root :: later).foldl
          (fun acc root =>
            ((darwin3_scan probe root acc.1 acc.2.1).1, (darwin3_scan probe root acc.1 acc.2.1).2.1,
              acc.2.2 ++ [(darwin3_scan probe root acc.1 acc.2.1).2.2]))
          (CountPciHostBridges root BridgeCount.initial, s, []) := by
    simp only [darwin3_scans, List.foldl_cons, first_scan_as_later probe root s]
  rw [hrw]
  obtain ⟨e1, e2⟩ := scans_fold_idle probe (root :: later) _ (count_nonneg_after root) s []
  refine ⟨e1, ?_, ?_⟩
  · rw [scans_fold_length]
    simp
  · intro log hl
    rcases e2 log hl with hm | hd
    · exact absurd hm (List.not_mem_nil _)
    · exact hd

theorem noBridges_count :
    CountPciHostBridges (some noBridges) BridgeCount.initial
      = { pciHostBridgeCount := 0, conformsTo := [0, 1, 2], rootEntries := 1 } := by
  simp [CountPciHostBridges, CountPciHostBridges1, noBridges, BridgeCount.initial]

/-- Worked example for C9: three scans, the first on the registry with two host
bridges and the later ones on changed registries, end with count 2, the walk
record of the first registry and one root lookup, and each of the three scans
probed exactly domains 0 and 1; when the first registry has no bridge the count
stays 0 although a later registry has two. -/
theorem host_bridge_count_is_memoized_witness :
    (darwin3_scans bridgeProbe [some twoBridges, some noBridges, none] BridgeCount.initial ()).1
      = { pciHostBridgeCount := 2, conformsTo := [0, 1, 2, 4, 5], rootEntries := 1 } ∧
    (darwin3_scans bridgeProbe [some twoBridges, some noBridges, none]
      BridgeCount.initial ()).2.2.length = 3 ∧
    (∀ log ∈ (darwin3_scans bridgeProbe [some twoBridges, some noBridges, none]
        BridgeCount.initial ()).2.2,
      ∀ d : Nat, (∃ p ∈ log, p.domain = d) ↔ (d : Int) < 2) ∧
    (darwin3_scans bridgeProbe [some noBridges, some twoBridges] BridgeCount.initial ()).1
      = { pciHostBridgeCount := 0, conformsTo := [0, 1, 2], rootEntries := 1 } := by
  have h := (@host_bridge_count_is_memoized Unit bridgeProbe (some twoBridges)).2.2.2
    [some noBridges, none] ()
  have g := (@host_bridge_count_is_memoized Unit bridgeProbe (some noBridges)).2.2.2
    [some twoBridges] ()
  rw [twoBridges_count] at h
  rw [noBridges_count] at g
  exact ⟨h.1, h.2.1, h.2.2, g.1⟩

/-! ## Detection is idempotent -/

theorem toUInt32_toInt32 (c : Nat) (h : c < 4294967296) : toUInt32 (toInt32 c) = c := by
  unfold toUInt32 toInt32
  rw [Nat.mod_eq_of_lt h]
  split <;> omega

theorem darwin1_detect_bound (k : IOKit) (st : Backend) (h : st.connect ≠ MACH_PORT_NULL) :
    darwin1_detect k st = (1, st) := by
  simp only [darwin1_detect, h, ne_eq, not_false_eq_true, if_true]

theorem darwin1_init_bound (k : IOKit) (st : Backend) (a : pci_access)
    (h : st.connect ≠ MACH_PORT_NULL) :
    darwin1_init k st a = (st, { a with fd := toInt32 st.connect }) := by
  simp only [darwin1_init, h, if_false]

theorem darwin2_detect_bound (k : IOKit) (st : Backend) (h : st.connect ≠ MACH_PORT_NULL) :
    darwin2_detect k st = (1, st) := by
  simp only [darwin2_detect, h, ne_eq, not_false_eq_true, if_true]

theorem darwin2_init_bound (k : IOKit) (st : Backend) (a : pci_access)
    (h : st.connect ≠ MACH_PORT_NULL) :
    darwin2_init k st a = (st, { a with fd := toInt32 st.connect }) := by
  simp only [darwin2_init, h, if_false]

theorem darwin3_detect_bound (k : IOKit) (st : Backend) (h : st.connect ≠ MACH_PORT_NULL) :
    darwin3_detect k st = (1, st) := by
  simp only [darwin3_detect, h, ne_eq, not_false_eq_true, if_true]

theorem darwin3_init_bound (k : IOKit) (st : Backend) (a : pci_access)
    (h : st.connect ≠ MACH_PORT_NULL) :
    darwin3_init k st a = (st, { a with fd := toInt32 st.connect }) := by
  simp only [darwin3_init, h, if_false]

/-- C10. For each variant: once `detect` has returned 1 and left a non-null
connection in the static, a second `detect`, whatever the registry now answers,
returns 1 and leaves the state as it was, connection and record of IOKit calls
alike (so it neither looks the service up nor opens it again); an `init` that
follows keeps that state too and stores the same connection in `a->fd`, from
which the 32-bit connection is read back unchanged. -/
theorem detect_is_idempotent :
    (∀ (k1 k2 k3 : IOKit) (st : Backend) (a : pci_access),
      (darwin1_detect k1 st).1 = 1 → (darwin1_detect k1 st).2.connect ≠ MACH_PORT_NULL →
      darwin1_detect k2 (darwin1_detect k1 st).2 = (1, (darwin1_detect k1 st).2) ∧
      (darwin1_init k3 (darwin1_detect k2 (darwin1_detect k1 st).2).2 a).1
        = (darwin1_detect k1 st).2 ∧
      (darwin1_init k3 (darwin1_detect k2 (darwin1_detect k1 st).2).2 a).2.fd
        = toInt32 (darwin1_detect k1 st).2.connect ∧
      ((darwin1_detect k1 st).2.connect < 4294967296 →
        toUInt32 (darwin1_init k3 (darwin1_detect k2 (darwin1_detect k1 st).2).2 a).2.fd
          = (darwin1_detect k1 st).2.connect)) ∧
    (∀ (k1 k2 k3 : IOKit) (st : Backend) (a : pci_access),
      (darwin2_detect k1 st).1 = 1 → (darwin2_detect k1 st).2.connect ≠ MACH_PORT_NULL →
      darwin2_detect k2 (darwin2_detect k1 st).2 = (1, (darwin2_detect k1 st).2) ∧
      (darwin2_init k3 (darwin2_detect k2 (darwin2_detect k1 st).2).2 a).1
        = (darwin2_detect k1 st).2 ∧
      (darwin2_init k3 (darwin2_detect k2 (darwin2_detect k1 st).2).2 a).2.fd
        = toInt32 (darwin2_detect k1 st).2.connect ∧
      ((darwin2_detect k1 st).2.connect < 4294967296 →
        toUInt32 (darwin2_init k3 (darwin2_detect k2 (darwin2_detect k1 st).2).2 a).2.fd
          = (darwin2_detect k1 st).2.connect)) ∧
    (∀ (k1 k2 k3 : IOKit) (st : Backend) (a : pci_access),
      (darwin3_detect k1 st).1 = 1 → (darwin3_detect k1 st).2.connect ≠ MACH_PORT_NULL →
      darwin3_detect k2 (darwin3_detect k1 st).2 = (1, (darwin3_detect k1 st).2) ∧
      (darwin3_init k3 (darwin3_detect k2 (darwin3_detect k1 st).2).2 a).1
        = (darwin3_detect k1 st).2 ∧
      (darwin3_init k3 (darwin3_detect k2 (darwin3_detect k1 st).2).2 a).2.fd
        = toInt32 (darwin3_detect k1 st).2.connect ∧
      ((darwin3_detect k1 st).2.connect < 4294967296 →
        toUInt32 (darwin3_init k3 (darwin3_detect k2 (darwin3_detect k1 st).2).2 a).2.fd
          = (darwin3_detect k1 st).2.connect)) := by
  refine ⟨?_, ?_, ?_⟩
  · intro k1 k2 k3 st a _ hc
    rw [darwin1_detect_bound k2 _ hc, darwin1_init_bound k3 _ a hc]
    exact ⟨rfl, rfl, rfl, fun hlt => toUInt32_toInt32 _ hlt⟩
  · intro k1 k2 k3 st a _ hc
    rw [darwin2_detect_bound k2 _ hc, darwin2_init_bound k3 _ a hc]
    exact ⟨rfl, rfl, rfl, fun hlt => toUInt32_toInt32 _ hlt⟩
  · intro k1 k2 k3 st a _ hc
    rw [darwin3_detect_bound k2 _ hc, darwin3_init_bound k3 _ a hc]
    exact ⟨rfl, rfl, rfl, fun hlt => toUInt32_toInt32 _ hlt⟩

/-- Worked example for C10: after a first `detect` on a registry that provides the
service (connection 4611), a second `detect` on a registry without the service
still returns 1 with connection 4611 and the four log entries of the first
call, and `init` stores 4611 in `a->fd`. -/
theorem detect_is_idempotent_witness :
    ((darwin1_detect absentKit (darwin1_detect presentKit Backend.initial).2).1 = 1 ∧
      (darwin1_detect absentKit (darwin1_detect presentKit Backend.initial).2).2.connect = 4611 ∧
      (darwin1_detect absentKit (darwin1_detect presentKit Backend.initial).2).2.log.length = 4 ∧
      (darwin1_init absentKit
        (darwin1_detect absentKit (darwin1_detect presentKit Backend.initial).2).2
        { fd := -1 }).2.fd = 4611) ∧
    ((darwin2_detect absentKit (darwin2_detect presentKit Backend.initial).2).1 = 1 ∧
      (darwin2_detect absentKit (darwin2_detect presentKit Backend.initial).2).2.connect = 4611 ∧
      (darwin2_detect absentKit (darwin2_detect presentKit Backend.initial).2).2.log.length = 4 ∧
      (darwin2_init absentKit
        (darwin2_detect absentKit (darwin2_detect presentKit Backend.initial).2).2
        { fd := -1 }).2.fd = 4611) ∧
    ((darwin3_detect absentKit (darwin3_detect presentKit Backend.initial).2).1 = 1 ∧
      (darwin3_detect absentKit (darwin3_detect presentKit Backend.initial).2).2.connect = 4611 ∧
      (darwin3_detect absentKit (darwin3_detect presentKit Backend.initial).2).2.log.length = 4 ∧
      (darwin3_init absentKit
        (darwin3_detect absentKit (darwin3_detect presentKit Backend.initial).2).2
        { fd := -1 }).2.fd = 4611) := by
  have h1 := detect_is_idempotent.1 presentKit absentKit absentKit Backend.initial { fd := -1 }
    (by decide) (by decide)
  have h2 := detect_is_idempotent.2.1 presentKit absentKit absentKit Backend.initial { fd := -1 }
    (by decide) (by decide)
  have h3 := detect_is_idempotent.2.2 presentKit absentKit absentKit Backend.initial { fd := -1 }
    (by decide) (by decide)
  refine ⟨⟨?_, ?_, ?_, ?_⟩, ⟨?_, ?_, ?_, ?_⟩, ⟨?_, ?_, ?_, ?_⟩⟩
  · rw [h1.1]
  · rw [h1.1]
    decide
  · rw [h1.1]
    decide
  · rw [h1.2.2.1]
    decide
  · rw [h2.1]
  · rw [h2.1]
    decide
  · rw [h2.1]
    decide
  · rw [h2.2.2.1]
    decide
  · rw [h3.1]
  · rw [h3.1]
    decide
  · rw [h3.1]
    decide
  · rw [h3.2.2.1]
    decide

/-! ## The binding under sequences of method calls -/

theorem darwin1_step_bound (st : Backend) (op : BackendOp) (h : st.connect ≠ MACH_PORT_NULL)
    (hop : op.isConfig = false) : darwin1_step st op = st := by
  cases op with
  | config a => simp [BackendOp.isConfig] at hop
  | detect k => simp only [darwin1_step, darwin1_detect_bound k st h]
  | init k a => simp only [darwin1_step, darwin1_init_bound k st a h]
  | cleanup a => rfl

theorem darwin1_run_bound (ops : List BackendOp) (st : Backend) (h : st.connect ≠ MACH_PORT_NULL)
    (hops : ∀ op ∈ ops, op.isConfig = false) : darwin1_run ops st = st := by
  induction ops with
  | nil => rfl
  | cons op rest ih =>
    have h1 := darwin1_step_bound st op h (hops op (List.mem_cons_self op rest))
    simp only [darwin1_run, List.foldl_cons, h1]
    exact ih (fun o ho => hops o (List.mem_cons_of_mem op ho))

theorem darwin2_step_bound (st : Backend) (op : BackendOp) (h : st.connect ≠ MACH_PORT_NULL)
    (hop : op.isConfig = false) : darwin2_step st op = st := by
  cases op with
  | config a => simp [BackendOp.isConfig] at hop
  | detect k => simp only [darwin2_step, darwin2_detect_bound k st h]
  | init k a => simp only [darwin2_step, darwin2_init_bound k st a h]
  | cleanup a => rfl

theorem darwin2_run_bound (ops : List BackendOp) (st : Backend) (h : st.connect ≠ MACH_PORT_NULL)
    (hops : ∀ op ∈ ops, op.isConfig = false) : darwin2_run ops st = st := by
  induction ops with
  | nil => rfl
  | cons op rest ih =>
    have h1 := darwin2_step_bound st op h (hops op (List.mem_cons_self op rest))
    simp only [darwin2_run, List.foldl_cons, h1]
    exact ih (fun o ho => hops o (List.mem_cons_of_mem op ho))

theorem darwin3_step_bound (st : Backend) (op : BackendOp) (h : st.connect ≠ MACH_PORT_NULL)
    (hop : op.isConfig = false) : darwin3_step st op = st := by
  cases op with
  | config a => simp [BackendOp.isConfig] at hop
  | detect k => simp only [darwin3_step, darwin3_detect_bound k st h]
  | init k a => simp only [darwin3_step, darwin3_init_bound k st a h]
  | cleanup a => rfl

theorem darwin3_run_bound (ops : List BackendOp) (st : Backend) (h : st.connect ≠ MACH_PORT_NULL)
    (hops : ∀ op ∈ ops, op.isConfig = false) : darwin3_run ops st = st := by
  induction ops with
  | nil => rfl
  | cons op rest ih =>
    have h1 := darwin3_step_bound st op h (hops op (List.mem_cons_self op rest))
    simp only [darwin3_run, List.foldl_cons, h1]
    exact ih (fun o ho => hops o (List.mem_cons_of_mem op ho))

/-- Counterexample for C11: in every variant, after `detect` has bound connection
4611, a call of `config` leaves the static connection null, and a `detect` that
follows looks the service up again and binds another connection (9001 from
service 8), as the record of IOKit calls shows. -/
theorem config_clears_bound_channel :
    ((darwin1_detect presentKit Backend.initial).2.connect = 4611 ∧
      (darwin1_run [.config { fd := 4611 }] (darwin1_detect presentKit Backend.initial).2).connect
        = MACH_PORT_NULL ∧
      (darwin1_run [.config { fd := 4611 }, .detect otherKit]
        (darwin1_detect presentKit Backend.initial).2).connect = 9001 ∧
      IOKitEvent.serviceOpen 8 0 ∈ (darwin1_run [.config { fd := 4611 }, .detect otherKit]
        (darwin1_detect presentKit Backend.initial).2).log) ∧
    ((darwin2_detect presentKit Backend.initial).2.connect = 4611 ∧
      (darwin2_run [.config { fd := 4611 }] (darwin2_detect presentKit Backend.initial).2).connect
        = MACH_PORT_NULL ∧
      (darwin2_run [.config { fd := 4611 }, .detect otherKit]
        (darwin2_detect presentKit Backend.initial).2).connect = 9001 ∧
      IOKitEvent.serviceOpen 8 kIOPCIDiagnosticsClientType ∈ (darwin2_run [.config { fd := 4611 }, .detect otherKit]
        (darwin2_detect presentKit Backend.initial).2).log) ∧
    ((darwin3_detect presentKit Backend.initial).2.connect = 4611 ∧
      (darwin3_run [.config { fd := 4611 }] (darwin3_detect presentKit Backend.initial).2).connect
        = MACH_PORT_NULL ∧
      (darwin3_run [.config { fd := 4611 }, .detect otherKit]
        (darwin3_detect presentKit Backend.initial).2).connect = 9001 ∧
      IOKitEvent.serviceOpen 8 0 ∈ (darwin3_run [.config { fd := 4611 }, .detect otherKit]
        (darwin3_detect presentKit Backend.initial).2).log) := by
  refine ⟨⟨?_, ?_, ?_, ?_⟩, ⟨?_, ?_, ?_, ?_⟩, ⟨?_, ?_, ?_, ?_⟩⟩ <;> decide

/-- C11, amended. For each variant: once a channel is bound, no later sequence of
`detect`, `init` and `cleanup` calls, whatever registry answers and access handle
they are given, changes or clears the bound channel or makes another IOKit call
(the state, call record included, stays as it is); a call of `config` resets the
static connection to `MACH_PORT_NULL` and leaves the call record alone. -/
theorem bound_channel_survives_detect_init_cleanup :
    (∀ (ops : List BackendOp) (st : Backend), st.connect ≠ MACH_PORT_NULL →
      (∀ op ∈ ops, op.isConfig = false) → darwin1_run ops st = st) ∧
    (∀ (st : Backend) (a : pci_access),
      darwin1_step st (.config a) = { connect := MACH_PORT_NULL, log := st.log }) ∧
    (∀ (ops : List BackendOp) (st : Backend), st.connect ≠ MACH_PORT_NULL →
      (∀ op ∈ ops, op.isConfig = false) → darwin2_run ops st = st) ∧
    (∀ (st : Backend) (a : pci_access),
      darwin2_step st (.config a) = { connect := MACH_PORT_NULL, log := st.log }) ∧
    (∀ (ops : List BackendOp) (st : Backend), st.connect ≠ MACH_PORT_NULL →
      (∀ op ∈ ops, op.isConfig = false) → darwin3_run ops st = st) ∧
    (∀ (st : Backend) (a : pci_access),
      darwin3_step st (.config a) = { connect := MACH_PORT_NULL, log := st.log }) := by
  refine ⟨fun ops st h hops => darwin1_run_bound ops st h hops, fun _ _ => rfl,
    fun ops st h hops => darwin2_run_bound ops st h hops, fun _ _ => rfl,
    fun ops st h hops => darwin3_run_bound ops st h hops, fun _ _ => rfl⟩

/-- Worked example for C11 as amended: after `detect` has bound connection 4611, a
`detect` on a registry offering another service, an `init` on a registry without
the service, a `cleanup` and a `detect` on a registry refusing to open leave the
state of every variant untouched. -/
theorem bound_channel_survives_detect_init_cleanup_witness :
    darwin1_run [.detect otherKit, .init absentKit { fd := -1 }, .cleanup { fd := 4611 },
        .detect lockedKit] (darwin1_detect presentKit Backend.initial).2
      = (darwin1_detect presentKit Backend.initial).2 ∧
    darwin2_run [.detect otherKit, .init absentKit { fd := -1 }, .cleanup { fd := 4611 },
        .detect lockedKit] (darwin2_detect presentKit Backend.initial).2
      = (darwin2_detect presentKit Backend.initial).2 ∧
    darwin3_run [.detect otherKit, .init absentKit { fd := -1 }, .cleanup { fd := 4611 },
        .detect lockedKit] (darwin3_detect presentKit Backend.initial).2
      = (darwin3_detect presentKit Backend.initial).2 := by
  refine ⟨?_, ?_, ?_⟩
  · exact bound_channel_survives_detect_init_cleanup.1 _ _ (by decide) (by
      intro op hop
      simp only [List.mem_cons, List.mem_singleton, List.not_mem_nil, or_false] at hop
      rcases hop with rfl | rfl | rfl | rfl <;> rfl)
  · exact bound_channel_survives_detect_init_cleanup.2.2.1 _ _ (by decide) (by
      intro op hop
      simp only [List.mem_cons, List.mem_singleton, List.not_mem_nil, or_false] at hop
      rcases hop with rfl | rfl | rfl | rfl <;> rfl)
  · exact bound_channel_survives_detect_init_cleanup.2.2.2.2.1 _ _ (by decide) (by
      intro op hop
      simp only [List.mem_cons, List.mem_singleton, List.not_mem_nil, or_false] at hop
      rcases hop with rfl | rfl | rfl | rfl <;> rfl)

/-! ## Initialisation without a service -/

theorem darwin1_detect_fails (k : IOKit) (st : Backend) (h : st.connect = MACH_PORT_NULL)
    (hk : (k.IOServiceGetMatchingService "AppleACPIPlatformExpert" = 0 ∨
        (k.IOServiceOpen (k.IOServiceGetMatchingService "AppleACPIPlatformExpert") 0).1
          ≠ kIOReturnSuccess)) :
    (darwin1_detect k st).1 = 0 ∧ (darwin1_detect k st).2.connect = MACH_PORT_NULL := by
  by_cases hs : k.IOServiceGetMatchingService "AppleACPIPlatformExpert" = 0
  · simp [darwin1_detect, h, hs]
  · have ho : ¬ (kIOReturnSuccess
        = (k.IOServiceOpen (k.IOServiceGetMatchingService "AppleACPIPlatformExpert") 0).1) := by
      rcases hk with hk | hk
      · exact absurd hk hs
      · exact fun e => hk e.symm
    simp [darwin1_detect, h, hs, ho]

theorem darwin1_init_unbound (k : IOKit) (st : Backend) (a : pci_access)
    (h : st.connect = MACH_PORT_NULL) :
    (darwin1_init k st a).1.connect = (darwin1_detect k st).2.connect ∧
    (darwin1_init k st a).1.log = (darwin1_detect k st).2.log ++ [IOKitEvent.debug "\n"] ∧
    (darwin1_init k st a).2.fd = toInt32 (darwin1_detect k st).2.connect := by
  simp only [darwin1_init, h, if_true, and_self]

theorem darwin2_detect_fails (k : IOKit) (st : Backend) (h : st.connect = MACH_PORT_NULL)
    (hk : (k.IOServiceGetMatchingService "IOPCIBridge" = 0 ∨
        (k.IOServiceOpen (k.IOServiceGetMatchingService "IOPCIBridge") kIOPCIDiagnosticsClientType).1
          ≠ kIOReturnSuccess)) :
    (darwin2_detect k st).1 = 0 ∧ (darwin2_detect k st).2.connect = MACH_PORT_NULL := by
  by_cases hs : k.IOServiceGetMatchingService "IOPCIBridge" = 0
  · simp [darwin2_detect, h, hs]
  · have ho : ¬ (kIOReturnSuccess
        = (k.IOServiceOpen (k.IOServiceGetMatchingService "IOPCIBridge") kIOPCIDiagnosticsClientType).1) := by
      rcases hk with hk | hk
      · exact absurd hk hs
      · exact fun e => hk e.symm
    simp [darwin2_detect, h, hs, ho]

theorem darwin2_init_unbound (k : IOKit) (st : Backend) (a : pci_access)
    (h : st.connect = MACH_PORT_NULL) :
    (darwin2_init k st a).1.connect = (darwin2_detect k st).2.connect ∧
    (darwin2_init k st a).1.log = (darwin2_detect k st).2.log ++ [IOKitEvent.debug "\n"] ∧
    (darwin2_init k st a).2.fd = toInt32 (darwin2_detect k st).2.connect := by
  simp only [darwin2_init, h, if_true, and_self]

theorem darwin3_detect_fails (k : IOKit) (st : Backend) (h : st.connect = MACH_PORT_NULL)
    (hk : (k.IOServiceGetMatchingService "DirectHWService" = 0 ∨
        (k.IOServiceOpen (k.IOServiceGetMatchingService "DirectHWService") 0).1
          ≠ kIOReturnSuccess)) :
    (darwin3_detect k st).1 = 0 ∧ (darwin3_detect k st).2.connect = MACH_PORT_NULL := by
  by_cases hs : k.IOServiceGetMatchingService "DirectHWService" = 0
  · simp [darwin3_detect, h, hs]
  · have ho : ¬ (kIOReturnSuccess
        = (k.IOServiceOpen (k.IOServiceGetMatchingService "DirectHWService") 0).1) := by
      rcases hk with hk | hk
      · exact absurd hk hs
      · exact fun e => hk e.symm
    simp [darwin3_detect, h, hs, ho]

theorem darwin3_init_unbound (k : IOKit) (st : Backend) (a : pci_access)
    (h : st.connect = MACH_PORT_NULL) :
    (darwin3_init k st a).1.connect = (darwin3_detect k st).2.connect ∧
    (darwin3_init k st a).1.log = (darwin3_detect k st).2.log ++ [IOKitEvent.debug "\n"] ∧
    (darwin3_init k st a).2.fd = toInt32 (darwin3_detect k st).2.connect := by
  simp only [darwin3_init, h, if_true, and_self]

/-- Counterexample for C12: in every variant, `init` on a registry without the
service, and `init` on a registry whose service refuses to open, complete with
the static connection null and with 0, the null connection, stored in `a->fd`
(neither `detect` nor `init` has a call of the error hook). -/
theorem init_installs_null_channel :
    ((darwin1_init absentKit Backend.initial { fd := -1 }).1.connect = MACH_PORT_NULL ∧
      (darwin1_init absentKit Backend.initial { fd := -1 }).2.fd = 0 ∧
      (darwin1_init lockedKit Backend.initial { fd := -1 }).1.connect = MACH_PORT_NULL ∧
      (darwin1_init lockedKit Backend.initial { fd := -1 }).2.fd = 0) ∧
    ((darwin2_init absentKit Backend.initial { fd := -1 }).1.connect = MACH_PORT_NULL ∧
      (darwin2_init absentKit Backend.initial { fd := -1 }).2.fd = 0 ∧
      (darwin2_init lockedKit Backend.initial { fd := -1 }).1.connect = MACH_PORT_NULL ∧
      (darwin2_init lockedKit Backend.initial { fd := -1 }).2.fd = 0) ∧
    ((darwin3_init absentKit Backend.initial { fd := -1 }).1.connect = MACH_PORT_NULL ∧
      (darwin3_init absentKit Backend.initial { fd := -1 }).2.fd = 0 ∧
      (darwin3_init lockedKit Backend.initial { fd := -1 }).1.connect = MACH_PORT_NULL ∧
      (darwin3_init lockedKit Backend.initial { fd := -1 }).2.fd = 0) := by
  refine ⟨⟨?_, ?_, ?_, ?_⟩, ⟨?_, ?_, ?_, ?_⟩, ⟨?_, ?_, ?_, ?_⟩⟩ <;> decide

/-- C12, amended. For each variant, when nothing is bound and the service is
absent or cannot be opened: `detect` returns 0 and binds nothing; `init`, which
runs `detect`, raises no error: it writes its newline through `a->debug`,
completes, and stores the null connection in the access handle. -/
theorem unbound_init_installs_null_channel :
    (∀ (k : IOKit) (st : Backend) (a : pci_access), st.connect = MACH_PORT_NULL →
      (k.IOServiceGetMatchingService "AppleACPIPlatformExpert" = 0 ∨
        (k.IOServiceOpen (k.IOServiceGetMatchingService "AppleACPIPlatformExpert") 0).1
          ≠ kIOReturnSuccess) →
      (darwin1_detect k st).1 = 0 ∧
      (darwin1_detect k st).2.connect = MACH_PORT_NULL ∧
      (darwin1_init k st a).1.connect = MACH_PORT_NULL ∧
      (darwin1_init k st a).1.log = (darwin1_detect k st).2.log ++ [IOKitEvent.debug "\n"] ∧
      (darwin1_init k st a).2.fd = 0) ∧
    (∀ (k : IOKit) (st : Backend) (a : pci_access), st.connect = MACH_PORT_NULL →
      (k.IOServiceGetMatchingService "IOPCIBridge" = 0 ∨
        (k.IOServiceOpen (k.IOServiceGetMatchingService "IOPCIBridge") kIOPCIDiagnosticsClientType).1
          ≠ kIOReturnSuccess) →
      (darwin2_detect k st).1 = 0 ∧
      (darwin2_detect k st).2.connect = MACH_PORT_NULL ∧
      (darwin2_init k st a).1.connect = MACH_PORT_NULL ∧
      (darwin2_init k st a).1.log = (darwin2_detect k st).2.log ++ [IOKitEvent.debug "\n"] ∧
      (darwin2_init k st a).2.fd = 0) ∧
    (∀ (k : IOKit) (st : Backend) (a : pci_access), st.connect = MACH_PORT_NULL →
      (k.IOServiceGetMatchingService "DirectHWService" = 0 ∨
        (k.IOServiceOpen (k.IOServiceGetMatchingService "DirectHWService") 0).1
          ≠ kIOReturnSuccess) →
      (darwin3_detect k st).1 = 0 ∧
      (darwin3_detect k st).2.connect = MACH_PORT_NULL ∧
      (darwin3_init k st a).1.connect = MACH_PORT_NULL ∧
      (darwin3_init k st a).1.log = (darwin3_detect k st).2.log ++ [IOKitEvent.debug "\n"] ∧
      (darwin3_init k st a).2.fd = 0) := by
  have z : toInt32 MACH_PORT_NULL = 0 := by decide
  refine ⟨?_, ?_, ?_⟩
  · intro k st a h hk
    obtain ⟨d1, d2⟩ := darwin1_detect_fails k st h hk
    obtain ⟨i1, i2, i3⟩ := darwin1_init_unbound k st a h
    exact ⟨d1, d2, i1.trans d2, i2, by rw [i3, d2, z]⟩
  · intro k st a h hk
    obtain ⟨d1, d2⟩ := darwin2_detect_fails k st h hk
    obtain ⟨i1, i2, i3⟩ := darwin2_init_unbound k st a h
    exact ⟨d1, d2, i1.trans d2, i2, by rw [i3, d2, z]⟩
  · intro k st a h hk
    obtain ⟨d1, d2⟩ := darwin3_detect_fails k st h hk
    obtain ⟨i1, i2, i3⟩ := darwin3_init_unbound k st a h
    exact ⟨d1, d2, i1.trans d2, i2, by rw [i3, d2, z]⟩

/-- Worked example for C12 as amended: from the initial state, on a registry
without the service and on one that refuses to open it, `detect` returns 0 and
`init` stores 0 in `a->fd`, in every variant. -/
theorem unbound_init_installs_null_channel_witness :
    ((darwin1_detect absentKit Backend.initial).1 = 0 ∧
      (darwin1_init absentKit Backend.initial { fd := -1 }).2.fd = 0 ∧
      (darwin1_detect lockedKit Backend.initial).1 = 0 ∧
      (darwin1_init lockedKit Backend.initial { fd := -1 }).2.fd = 0) ∧
    ((darwin2_detect absentKit Backend.initial).1 = 0 ∧
      (darwin2_init absentKit Backend.initial { fd := -1 }).2.fd = 0 ∧
      (darwin2_detect lockedKit Backend.initial).1 = 0 ∧
      (darwin2_init lockedKit Backend.initial { fd := -1 }).2.fd = 0) ∧
    ((darwin3_detect absentKit Backend.initial).1 = 0 ∧
      (darwin3_init absentKit Backend.initial { fd := -1 }).2.fd = 0 ∧
      (darwin3_detect lockedKit Backend.initial).1 = 0 ∧
      (darwin3_init lockedKit Backend.initial { fd := -1 }).2.fd = 0) := by
  refine ⟨?_, ?_, ?_⟩
  · have ha := unbound_init_installs_null_channel.1 absentKit Backend.initial { fd := -1 } rfl
      (Or.inl rfl)
    have hl := unbound_init_installs_null_channel.1 lockedKit Backend.initial { fd := -1 } rfl
      (Or.inr (by decide))
    exact ⟨ha.1, ha.2.2.2.2, hl.1, hl.2.2.2.2⟩
  · have ha := unbound_init_installs_null_channel.2.1 absentKit Backend.initial { fd := -1 } rfl
      (Or.inl rfl)
    have hl := unbound_init_installs_null_channel.2.1 lockedKit Backend.initial { fd := -1 } rfl
      (Or.inr (by decide))
    exact ⟨ha.1, ha.2.2.2.2, hl.1, hl.2.2.2.2⟩
  · have ha := unbound_init_installs_null_channel.2.2 absentKit Backend.initial { fd := -1 } rfl
      (Or.inl rfl)
    have hl := unbound_init_installs_null_channel.2.2 lockedKit Backend.initial { fd := -1 } rfl
      (Or.inr (by decide))
    exact ⟨ha.1, ha.2.2.2.2, hl.1, hl.2.2.2.2⟩

/-! ## The three variants behind the uniform contract -/

theorem darwin1_read_observed {σ : Type} (h : Host σ AddressSpaceParam) (s : σ)
    (param0 : AddressSpaceParam) (d : pci_dev) (pos : Int) (buf : List Nat) (w V : Nat) (status : Int)
    (hw : w = 1 ∨ w = 2 ∨ w = 4)
    (hs : (MyIOConnectCallStructMethod h s (darwin1_read_call param0 d pos w)).1 = status)
    (hv : (MyIOConnectCallStructMethod h s (darwin1_read_call param0 d pos w)).2.1.value = V) :
    (darwin1_read h s param0 d pos buf w).observed =
      if status = kIOReturnSuccess then .ok (1, le_bytes w V ++ buf.drop w)
      else .error { status := status, description := h.mach_error_string status } := by
  by_cases hst : status = kIOReturnSuccess
  · rw [if_pos hst, Run.observed, darwin1_read_ok h s param0 d pos buf w V hw (hs.trans hst) hv]
  · have hlen : ((w : Int) = 1 ∨ (w : Int) = 2 ∨ (w : Int) = 4) := by omega
    have hne : ¬ (kIOReturnSuccess = status) := fun e => hst e.symm
    rw [if_neg hst]
    simp only [Run.observed, darwin1_read, hlen, not_true_eq_false, if_false, ne_eq, hs, hne,
      not_false_eq_true, if_true]

theorem darwin1_read_block (param0 : AddressSpaceParam) (d : pci_dev) (pos : Int) (w : Nat)
    (hw : w = 1 ∨ w = 2 ∨ w = 4) :
    (darwin1_read_call param0 d pos w).input.block =
      { spaceTag := 2, bitWidth := 8 * w, options := 0, addr64 := (pci_address d pos).addr64,
        value := 2 ^ 64 - 1 } := by
  rcases hw with rfl | rfl | rfl <;>
    simp [darwin1_read_call, darwin1_read_param, AddressSpaceParam.block, toUInt32,
      kIOACPIAddressSpaceIDPCIConfiguration, kIOPCIConfigSpace]

theorem darwin1_write_block (param0 : AddressSpaceParam) (d : pci_dev) (pos : Int) (buf : List Nat)
    (w : Nat) (hw : w = 1 ∨ w = 2 ∨ w = 4) :
    (darwin1_write_call param0 d pos buf w).input.block =
      { spaceTag := 2, bitWidth := 8 * w, options := 0, addr64 := (pci_address d pos).addr64,
        value := peek buf w } := by
  rcases hw with rfl | rfl | rfl <;>
    simp [darwin1_write_call, darwin1_write_param, AddressSpaceParam.block, toUInt32, write_load,
      kIOACPIAddressSpaceIDPCIConfiguration, kIOPCIConfigSpace]

theorem darwin2_read_observed {σ : Type} (h : Host σ IOPCIDiagnosticsParameters) (s : σ)
    (param0 : IOPCIDiagnosticsParameters) (d : pci_dev) (pos : Int) (buf : List Nat) (w V : Nat) (status : Int)
    (hw : w = 1 ∨ w = 2 ∨ w = 4)
    (hs : (MyIOConnectCallStructMethod h s (darwin2_read_call param0 d pos w)).1 = status)
    (hv : (MyIOConnectCallStructMethod h s (darwin2_read_call param0 d pos w)).2.1.value = V) :
    (darwin2_read h s param0 d pos buf w).observed =
      if status = kIOReturnSuccess then .ok (1, le_bytes w V ++ buf.drop w)
      else .error { status := status, description := h.mach_error_string status } := by
  by_cases hst : status = kIOReturnSuccess
  · rw [if_pos hst, Run.observed, darwin2_read_ok h s param0 d pos buf w V hw (hs.trans hst) hv]
  · have hlen : ((w : Int) = 1 ∨ (w : Int) = 2 ∨ (w : Int) = 4) := by omega
    have hne : ¬ (kIOReturnSuccess = status) := fun e => hst e.symm
    rw [if_neg hst]
    simp only [Run.observed, darwin2_read, hlen, not_true_eq_false, if_false, ne_eq, hs, hne,
      not_false_eq_true, if_true]

theorem darwin2_read_block (param0 : IOPCIDiagnosticsParameters) (d : pci_dev) (pos : Int) (w : Nat)
    (hw : w = 1 ∨ w = 2 ∨ w = 4) :
    (darwin2_read_call param0 d pos w).input.block =
      { spaceTag := 0, bitWidth := 8 * w, options := 0, addr64 := (pci_address d pos).addr64,
        value := 2 ^ 64 - 1 } := by
  rcases hw with rfl | rfl | rfl <;>
    simp [darwin2_read_call, darwin2_read_param, IOPCIDiagnosticsParameters.block, toUInt32,
      kIOACPIAddressSpaceIDPCIConfiguration, kIOPCIConfigSpace]

theorem darwin2_write_block (param0 : IOPCIDiagnosticsParameters) (d : pci_dev) (pos : Int) (buf : List Nat)
    (w : Nat) (hw : w = 1 ∨ w = 2 ∨ w = 4) :
    (darwin2_write_call param0 d pos buf w).input.block =
      { spaceTag := 0, bitWidth := 8 * w, options := 0, addr64 := (pci_address d pos).addr64,
        value := peek buf w } := by
  rcases hw with rfl | rfl | rfl <;>
    simp [darwin2_write_call, darwin2_write_param, IOPCIDiagnosticsParameters.block, toUInt32, write_load,
      kIOACPIAddressSpaceIDPCIConfiguration, kIOPCIConfigSpace]

theorem darwin3_read_observed {σ : Type} (h : Host σ IOPCIDiagnosticsParameters) (s : σ)
    (param0 : IOPCIDiagnosticsParameters) (d : pci_dev) (pos : Int) (buf : List Nat) (w V : Nat) (status : Int)
    (hw : w = 1 ∨ w = 2 ∨ w = 4)
    (hs : (MyIOConnectCallStructMethod h s (darwin3_read_call param0 d pos w)).1 = status)
    (hv : (MyIOConnectCallStructMethod h s (darwin3_read_call param0 d pos w)).2.1.value = V) :
    (darwin3_read h s param0 d pos buf w).observed =
      if status = kIOReturnSuccess then .ok (1, le_bytes w V ++ buf.drop w)
      else .error { status := status, description := h.mach_error_string status } := by
  by_cases hst : status = kIOReturnSuccess
  · rw [if_pos hst, Run.observed, darwin3_read_ok h s param0 d pos buf w V hw (hs.trans hst) hv]
  · have hlen : ((w : Int) = 1 ∨ (w : Int) = 2 ∨ (w : Int) = 4) := by omega
    have hne : ¬ (kIOReturnSuccess = status) := fun e => hst e.symm
    rw [if_neg hst]
    simp only [Run.observed, darwin3_read, hlen, not_true_eq_false, if_false, ne_eq, hs, hne,
      not_false_eq_true, if_true]

theorem darwin3_read_block (param0 : IOPCIDiagnosticsParameters) (d : pci_dev) (pos : Int) (w : Nat)
    (hw : w = 1 ∨ w = 2 ∨ w = 4) :
    (darwin3_read_call param0 d pos w).input.block =
      { spaceTag := 0, bitWidth := 8 * w, options := 0, addr64 := (pci_address d pos).addr64,
        value := 2 ^ 64 - 1 } := by
  rcases hw with rfl | rfl | rfl <;>
    simp [darwin3_read_call, darwin3_read_param, IOPCIDiagnosticsParameters.block, toUInt32,
      kIOACPIAddressSpaceIDPCIConfiguration, kIOPCIConfigSpace]

theorem darwin3_write_block (param0 : IOPCIDiagnosticsParameters) (d : pci_dev) (pos : Int) (buf : List Nat)
    (w : Nat) (hw : w = 1 ∨ w = 2 ∨ w = 4) :
    (darwin3_write_call param0 d pos buf w).input.block =
      { spaceTag := 0, bitWidth := 8 * w, options := 0, addr64 := (pci_address d pos).addr64,
        value := peek buf w } := by
  rcases hw with rfl | rfl | rfl <;>
    simp [darwin3_write_call, darwin3_write_param, IOPCIDiagnosticsParameters.block, toUInt32, write_load,
      kIOACPIAddressSpaceIDPCIConfiguration, kIOPCIConfigSpace]

/-- C13. The three variants are observationally equivalent behind the uniform
contract.  For every device, position, buffer and width `w` in 1, 2, 4, and
every status and response value with which the transports answer the read
request (the status being described alike): `darwin1_read`, `darwin2_read` and
`darwin3_read` give the caller the same thing, namely 1 with the `w` low-order
bytes of the value at the start of the buffer on success, and
`TransactionFailed` with the status and its description otherwise.  The read
requests carry bit width `8*w`, options 0, the same address word and the
all-ones value, the write requests the same with the loaded value; the blocks
differ in the space tag only (2 for the ACPI variant, 0 for the other two), and
the method indices are 0 and 1 for read and write in the first two variants, 7
and 8 in the DirectHW variant. -/
theorem variants_observationally_equivalent {σ₁ σ₂ σ₃ : Type} (d : pci_dev) (pos : Int)
    (buf wbuf : List Nat) (w V : Nat) (status : Int) (hw : w = 1 ∨ w = 2 ∨ w = 4)
    (h1 : Host σ₁ AddressSpaceParam) (h2 : Host σ₂ IOPCIDiagnosticsParameters)
    (h3 : Host σ₃ IOPCIDiagnosticsParameters) (s1 : σ₁) (s2 : σ₂) (s3 : σ₃)
    (p1 : AddressSpaceParam) (p2 p3 : IOPCIDiagnosticsParameters)
    (hs1 : (MyIOConnectCallStructMethod h1 s1 (darwin1_read_call p1 d pos w)).1 = status)
    (hv1 : (MyIOConnectCallStructMethod h1 s1 (darwin1_read_call p1 d pos w)).2.1.value = V)
    (hs2 : (MyIOConnectCallStructMethod h2 s2 (darwin2_read_call p2 d pos w)).1 = status)
    (hv2 : (MyIOConnectCallStructMethod h2 s2 (darwin2_read_call p2 d pos w)).2.1.value = V)
    (hs3 : (MyIOConnectCallStructMethod h3 s3 (darwin3_read_call p3 d pos w)).1 = status)
    (hv3 : (MyIOConnectCallStructMethod h3 s3 (darwin3_read_call p3 d pos w)).2.1.value = V)
    (hd2 : h2.mach_error_string status = h1.mach_error_string status)
    (hd3 : h3.mach_error_string status = h1.mach_error_string status) :
    (darwin1_read h1 s1 p1 d pos buf w).observed = (darwin2_read h2 s2 p2 d pos buf w).observed ∧
    (darwin2_read h2 s2 p2 d pos buf w).observed = (darwin3_read h3 s3 p3 d pos buf w).observed ∧
    (darwin1_read h1 s1 p1 d pos buf w).observed =
      (if status = kIOReturnSuccess then .ok (1, le_bytes w V ++ buf.drop w)
        else .error { status := status, description := h1.mach_error_string status }) ∧
    (darwin1_read_call p1 d pos w).input.block =
      { spaceTag := 2, bitWidth := 8 * w, options := 0, addr64 := (pci_address d pos).addr64,
        value := 2 ^ 64 - 1 } ∧
    (darwin2_read_call p2 d pos w).input.block =
      { spaceTag := 0, bitWidth := 8 * w, options := 0, addr64 := (pci_address d pos).addr64,
        value := 2 ^ 64 - 1 } ∧
    (darwin3_read_call p3 d pos w).input.block =
      { spaceTag := 0, bitWidth := 8 * w, options := 0, addr64 := (pci_address d pos).addr64,
        value := 2 ^ 64 - 1 } ∧
    (darwin1_write_call p1 d pos wbuf w).input.block =
      { spaceTag := 2, bitWidth := 8 * w, options := 0, addr64 := (pci_address d pos).addr64,
        value := peek wbuf w } ∧
    (darwin2_write_call p2 d pos wbuf w).input.block =
      { spaceTag := 0, bitWidth := 8 * w, options := 0, addr64 := (pci_address d pos).addr64,
        value := peek wbuf w } ∧
    (darwin3_write_call p3 d pos wbuf w).input.block =
      { spaceTag := 0, bitWidth := 8 * w, options := 0, addr64 := (pci_address d pos).addr64,
        value := peek wbuf w } ∧
    ((darwin1_read_call p1 d pos w).index = 0 ∧ (darwin1_write_call p1 d pos wbuf w).index = 1) ∧
    ((darwin2_read_call p2 d pos w).index = 0 ∧ (darwin2_write_call p2 d pos wbuf w).index = 1) ∧
    ((darwin3_read_call p3 d pos w).index = 7 ∧ (darwin3_write_call p3 d pos wbuf w).index = 8) := by
  have o1 := darwin1_read_observed h1 s1 p1 d pos buf w V status hw hs1 hv1
  have o2 := darwin2_read_observed h2 s2 p2 d pos buf w V status hw hs2 hv2
  have o3 := darwin3_read_observed h3 s3 p3 d pos buf w V status hw hs3 hv3
  rw [hd2] at o2
  rw [hd3] at o3
  exact ⟨o1.trans o2.symm, o2.trans o3.symm, o1, darwin1_read_block p1 d pos w hw,
    darwin2_read_block p2 d pos w hw, darwin3_read_block p3 d pos w hw,
    darwin1_write_block p1 d pos wbuf w hw, darwin2_write_block p2 d pos wbuf w hw,
    darwin3_write_block p3 d pos wbuf w hw, ⟨rfl, rfl⟩, ⟨rfl, rfl⟩, ⟨rfl, rfl⟩⟩

/-- Worked example for C13: answered with success and the value 0xCAFEBABE, the
2-byte reads of all three variants return 1 with BE BA at the start of the
buffer; answered with 0xE00002C1 they all end in `TransactionFailed` with that
status and the same description. -/
theorem variants_observationally_equivalent_witness :
    ((darwin1_read (replyHost 0 (fun p => { p with value := 3405691582 })) () zeroParam1 dev1 64
        [0, 0, 0, 0] 2).observed = .ok (1, [190, 186, 0, 0]) ∧
      (darwin2_read (replyHost 0 (fun p => { p with value := 3405691582 })) () zeroParam2 dev1 64
        [0, 0, 0, 0] 2).observed = .ok (1, [190, 186, 0, 0]) ∧
      (darwin3_read (replyHost 0 (fun p => { p with value := 3405691582 })) () zeroParam2 dev1 64
        [0, 0, 0, 0] 2).observed = .ok (1, [190, 186, 0, 0])) ∧
    ((darwin1_read (replyHost (-536870207) id) () zeroParam1 dev1 64 [0, 0, 0, 0] 2).observed
        = .error { status := -536870207, description := "failure" } ∧
      (darwin2_read (replyHost (-536870207) id) () zeroParam2 dev1 64 [0, 0, 0, 0] 2).observed
        = .error { status := -536870207, description := "failure" } ∧
      (darwin3_read (replyHost (-536870207) id) () zeroParam2 dev1 64 [0, 0, 0, 0] 2).observed
        = .error { status := -536870207, description := "failure" }) := by
  have hok := @variants_observationally_equivalent Unit Unit Unit dev1 64 [0, 0, 0, 0] [] 2
    3405691582 0 (by decide)
    (replyHost 0 (fun p => { p with value := 3405691582 }))
    (replyHost 0 (fun p => { p with value := 3405691582 }))
    (replyHost 0 (fun p => { p with value := 3405691582 })) () () () zeroParam1 zeroParam2
    zeroParam2 rfl rfl rfl rfl rfl rfl rfl rfl
  have hbad := @variants_observationally_equivalent Unit Unit Unit dev1 64 [0, 0, 0, 0] [] 2
    18446744073709551615 (-536870207) (by decide)
    (replyHost (-536870207) id) (replyHost (-536870207) id) (replyHost (-536870207) id) () () ()
    zeroParam1 zeroParam2 zeroParam2 rfl rfl rfl rfl rfl rfl rfl rfl
  have e1 := hok.2.2.1
  have f1 := hbad.2.2.1
  exact ⟨⟨e1, hok.1.symm.trans e1, hok.2.1.symm.trans (hok.1.symm.trans e1)⟩,
    ⟨f1, hbad.1.symm.trans f1, hbad.2.1.symm.trans (hbad.1.symm.trans f1)⟩⟩

end Darwin
